import Mathlib

/-!
# Subdivision-surface helpers, snapping operators and the rigid body sweep test

A shallow embedding of
* the inline helpers of `source/blender/blenkernel/intern/subdiv_inline.hh`,
* the level limit and the hash macro of
  `source/blender/blenkernel/intern/CCGSubSurf_intern.h`, with a model of the
  hash functions that the header only declares,
* the snapping functions of `source/blender/editors/space_view3d/view3d_snap.cc`,
* the sweep test of `source/blender/makesrna/intern/rna_rigidbody.cc`.

Conventions:
* `float` values are modelled by the elements of an arbitrary linearly ordered
  field `α` (exact arithmetic; instantiate with `ℚ` to compute, with `ℝ` for the
  statements that need a square root).  The literals `0.5f`, `2.0f`, `0.1f`,
  `10.0f` are the field elements `0.5`, `2`, `0.1`, `10.0`.
* Output parameters (`float *r_u, float *r_v`) become the components of the
  returned tuple.
* `BLI_assert(c)` is modelled as a failure: a function containing an assertion
  returns `none` when the assertion does not hold and `some result` otherwise.
* `int` is the 32-bit two's complement integer: values are elements of `Int`
  and every arithmetic result is reduced with `wrap_int`.
* Constants, macros and functions that the sources use and do not define are
  parameters of the model, or are modelled under a comment that says so.
-/

namespace Subdiv

/-! ## Machine integers -/

/-- Smallest value of a 32-bit signed `int`. -/
def INT_MIN : Int := -2147483648

/-- Largest value of a 32-bit signed `int`. -/
def INT_MAX : Int := 2147483647

/-- Reduction of an integer to the 32-bit two's complement range. -/
def wrap_int (x : Int) : Int := (x + 2147483648) % 4294967296 - 2147483648

/-- The value is representable in a 32-bit signed `int`. -/
def fits_int (x : Int) : Prop := INT_MIN ≤ x ∧ x ≤ INT_MAX

instance (x : Int) : Decidable (fits_int x) := by
  unfold fits_int
  infer_instance

/-- The C++ expression `a + b` on `int`. -/
def add_int (a b : Int) : Int := wrap_int (a + b)

/-- The C++ expression `a - b` on `int`. -/
def sub_int (a b : Int) : Int := wrap_int (a - b)

/-- The C++ expression `a * b` on `int`. -/
def mul_int (a b : Int) : Int := wrap_int (a * b)

/-- The C++ expression `a << s` on `int`: undefined (here `none`) when the shift
count is negative or not smaller than the width of the type, and the two's
complement reduction of `a * 2 ^ s` otherwise. -/
def shl_int (a s : Int) : Option Int :=
  if 0 ≤ s ∧ s < 32 then some (wrap_int (a * 2 ^ s.toNat)) else none

/-! ## `CCGSubSurf_intern.h` -/

/-- The macro `CCGSUBSURF_LEVEL_MAX`. -/
def CCGSUBSURF_LEVEL_MAX : Int := 11

/-! ## `subdiv_inline.hh` -/

section Float

variable {α : Type} [LinearOrderedField α]

/-- The function `ptex_face_uv_to_grid_uv`; the result is `(r_grid_u, r_grid_v)`. -/
def ptex_face_uv_to_grid_uv (ptex_u ptex_v : α) : α × α :=
  (1 - ptex_v, 1 - ptex_u)

/-- The function `grid_uv_to_ptex_face_uv`; the result is `(r_ptex_u, r_ptex_v)`. -/
def grid_uv_to_ptex_face_uv (grid_u grid_v : α) : α × α :=
  (1 - grid_v, 1 - grid_u)

/-- The function `rotate_quad_to_corner`; the result is
`(corner, r_corner_u, r_corner_v)`, and `none` when the assertion of the last
branch fails. -/
def rotate_quad_to_corner (quad_u quad_v : α) : Option (Int × α × α) :=
  if quad_u ≤ 0.5 ∧ quad_v ≤ 0.5 then
    some (0, 2 * quad_u, 2 * quad_v)
  else if quad_u > 0.5 ∧ quad_v ≤ 0.5 then
    some (1, 2 * quad_v, 2 * (1 - quad_u))
  else if quad_u > 0.5 ∧ quad_v > 0.5 then
    some (2, 2 * (1 - quad_u), 2 * (1 - quad_v))
  else if quad_u ≤ 0.5 ∧ quad_v ≥ 0.5 then
    some (3, 2 * (1 - quad_v), 2 * quad_u)
  else
    none

/-- The function `rotate_grid_to_quad`; the result is `(r_quad_u, r_quad_v)`, and
`none` when the assertion `corner == 3` of the last branch fails. -/
def rotate_grid_to_quad (corner : Int) (grid_u grid_v : α) : Option (α × α) :=
  if corner = 0 then
    some (0.5 - grid_v * 0.5, 0.5 - grid_u * 0.5)
  else if corner = 1 then
    some (0.5 + grid_u * 0.5, 0.5 - grid_v * 0.5)
  else if corner = 2 then
    some (0.5 + grid_v * 0.5, 0.5 + grid_u * 0.5)
  else if corner = 3 then
    some (0.5 - grid_u * 0.5, 0.5 + grid_v * 0.5)
  else
    none

/-- The function `crease_to_sharpness`. -/
def crease_to_sharpness (crease : α) : α :=
  crease * crease * 10.0

/-- The function `sharpness_to_crease`.  The library function `sqrt` of `<cmath>`
is a parameter, so that the definition stays executable; the statements about
exact real arithmetic instantiate it with `Real.sqrt`. -/
def sharpness_to_crease (sqrt : α → α) (sharpness : α) : α :=
  sqrt (sharpness * 0.1)

/-- The open quadrant of the unit square that belongs to a corner: corner 0 is
the quadrant around `(0,0)`, corner 1 around `(1,0)`, corner 2 around `(1,1)`
and corner 3 around `(0,1)`; the midlines and the border are excluded. -/
def open_quadrant (corner : Int) (u v : α) : Prop :=
  (corner = 0 ∧ 0 < u ∧ u < 0.5 ∧ 0 < v ∧ v < 0.5) ∨
  (corner = 1 ∧ 0.5 < u ∧ u < 1 ∧ 0 < v ∧ v < 0.5) ∨
  (corner = 2 ∧ 0.5 < u ∧ u < 1 ∧ 0.5 < v ∧ v < 1) ∨
  (corner = 3 ∧ 0 < u ∧ u < 0.5 ∧ 0.5 < v ∧ v < 1)

instance (corner : Int) (u v : α) : Decidable (open_quadrant corner u v) := by
  unfold open_quadrant
  infer_instance

/-- The closed unit interval `[0,1]`. -/
def unit_interval (x : α) : Prop := 0 ≤ x ∧ x ≤ 1

instance (x : α) : Decidable (unit_interval x) := by
  unfold unit_interval
  infer_instance

end Float

/-- The function `grid_size_from_level`: `(1 << (level - 1)) + 1` on `int`. -/
def grid_size_from_level (level : Int) : Option Int :=
  (shl_int 1 (sub_int level 1)).map (fun shifted => add_int shifted 1)

/-- Modelled from the spec: the number of faces into which a single face with
`numVerts` corners is subdivided at a level, `numVerts` corner grids of
`(grid_size - 1)²` quads each, computed on `int`; the code that counts the faces
is not among the sources, which have the comment on `CCGSUBSURF_LEVEL_MAX`
only. -/
def subdivided_face_count (numVerts level : Int) : Option Int :=
  (grid_size_from_level level).map
    (fun gridSize => mul_int numVerts (mul_int (sub_int gridSize 1) (sub_int gridSize 1)))

/-! ## `CCGSubSurf_intern.h`: the hash table -/

/-- The conversion `(unsigned int)x` of an `int`. -/
def to_uint (x : Int) : Nat := (x % 4294967296).toNat

/-- The struct `EHEntry`.  The field `key` is the unsigned integer value
`(uintptr_t)key` of the pointer-sized key.  An entry is a memory block, told from
the other entries by its address `addr`; the link `next` is the order of the
entries in the chain of a bucket. -/
structure EHEntry where
  key : Nat
  addr : Nat
deriving DecidableEq, Repr

/-- The struct `EHash`, without the allocator: `buckets` lists the chains of the
buckets, each chain from its first entry on. -/
structure EHash where
  buckets : List (List EHEntry)
  numEntries : Int
  curSize : Int
  curSizeIdx : Int
deriving DecidableEq, Repr

/-- The macro `EHASH_hash(eh, item)`:
`((uintptr_t)(item)) % ((unsigned int)(eh)->curSize)`, where `item` is given by
its value as an unsigned integer; a remainder by zero is undefined (`none`). -/
def EHASH_hash (eh : EHash) (item : Nat) : Option Nat :=
  if to_uint eh.curSize = 0 then none else some (item % to_uint eh.curSize)

/-- Modelled from the spec: the growth policy of the hash table, whose code
(`CCGSubSurf_util.cc`) is not among the sources.  `kHashSizes` is the
"precomputed sequence of prime-like bucket counts indexed by a size-class
counter", `initialSizeIdx` the size class `ccg_ehash_new` picks for an estimated
number of entries, and `overloaded numEntries curSize` tells whether "the load
factor crosses a threshold".  The spec fixes none of the three, so they are
parameters. -/
structure EHashPolicy where
  kHashSizes : Nat → Nat
  initialSizeIdx : Int → Nat
  overloaded : Int → Int → Bool

/-- Modelled from the spec: the table `ccg_ehash_new` creates, with no entry and
with the bucket count of the initial size class. -/
def ccg_ehash_new (p : EHashPolicy) (estimatedNumEntries : Int) : EHash :=
  { buckets := List.replicate (p.kHashSizes (p.initialSizeIdx estimatedNumEntries)) [],
    numEntries := 0,
    curSize := p.kHashSizes (p.initialSizeIdx estimatedNumEntries),
    curSizeIdx := p.initialSizeIdx estimatedNumEntries }

/-- The buckets after an entry has been put at the head of the chain with the
given index (`entry->next = buckets[hash]; buckets[hash] = entry`). -/
def bucket_push : List (List EHEntry) → Nat → EHEntry → List (List EHEntry)
  | [], _, _ => []
  | b :: bs, 0, e => (e :: b) :: bs
  | b :: bs, i + 1, e => b :: bucket_push bs i e

/-- Modelled from the spec: an entry is linked into the bucket that
`EHASH_hash` gives for its key ("insert(entry) adds a node keyed by an opaque
pointer-sized key"). -/
def ehash_link (eh : EHash) (entry : EHEntry) : Option EHash :=
  (EHASH_hash eh entry.key).map
    (fun hash => { eh with buckets := bucket_push eh.buckets hash entry })

/-- Modelled from the spec: `ccg_ehash_insert`.  The entry is linked and counted;
"when the load factor crosses a threshold, the table is rehashed into the next
size class — all entries must be rehashed during growth". -/
def ccg_ehash_insert (p : EHashPolicy) (eh : EHash) (entry : EHEntry) : Option EHash :=
  (ehash_link eh entry).bind (fun linked =>
    if p.overloaded (add_int linked.numEntries 1) linked.curSize then
      List.foldlM ehash_link
        { buckets := List.replicate (p.kHashSizes (add_int linked.curSizeIdx 1).toNat) [],
          numEntries := add_int linked.numEntries 1,
          curSize := p.kHashSizes (add_int linked.curSizeIdx 1).toNat,
          curSizeIdx := add_int linked.curSizeIdx 1 }
        linked.buckets.flatten
    else
      some { linked with numEntries := add_int linked.numEntries 1 })

/-- Modelled from the spec: `ccg_ehash_lookup`, "lookup(key) returns the
associated element or a not-found signal": the first entry with the key in the
chain of the bucket of the key.  The result is `none` when the hash is
undefined, `some none` for the null pointer (not found) and `some (some e)` for
a pointer to the entry `e`. -/
def ccg_ehash_lookup (eh : EHash) (key : Nat) : Option (Option EHEntry) :=
  (EHASH_hash eh key).map
    (fun hash => (eh.buckets.getD hash []).find? (fun e => e.key == key))

/-- The buckets after the first entry with the key has been taken out of the
chain with the given index (`*prevp = entry->next`). -/
def bucket_unlink : List (List EHEntry) → Nat → Nat → List (List EHEntry)
  | [], _, _ => []
  | b :: bs, 0, key => b.eraseP (fun e => e.key == key) :: bs
  | b :: bs, i + 1, key => b :: bucket_unlink bs i key

/-- Modelled from the spec: the removal of a key, "`lookup_with_prev(key)`
additionally yields the slot holding the link to the found entry, enabling O(1)
unlink": the entry `ccg_ehash_lookupWithPrev` finds is taken out of its chain
and, when there was one, the count goes down by one. -/
def ccg_ehash_unlink (eh : EHash) (key : Nat) : Option EHash :=
  (EHASH_hash eh key).map (fun hash =>
    { eh with
      buckets := bucket_unlink eh.buckets hash key
      numEntries :=
        if ((eh.buckets.getD hash []).find? (fun e => e.key == key)).isSome then
          sub_int eh.numEntries 1
        else eh.numEntries })

/-- The size classes of the policy are positive and representable as `int`. -/
def EHashPolicy.valid (p : EHashPolicy) : Prop :=
  ∀ i, 0 < p.kHashSizes i ∧ (p.kHashSizes i : Int) ≤ INT_MAX

/-- The invariant of the table: the bucket count is positive and representable,
every entry is in the bucket of its key, and the entries of all chains together
are the entries of the list `S`. -/
def EHash.holds (eh : EHash) (S : List EHEntry) : Prop :=
  0 < eh.curSize ∧ eh.curSize ≤ INT_MAX ∧ eh.buckets.length = eh.curSize.toNat ∧
  (∀ i x, x ∈ eh.buckets.getD i [] → x.key % eh.curSize.toNat = i) ∧
  eh.buckets.flatten.Perm S

/-- The policy of the examples: bucket counts 1, 3, 5, 11, 17, 37, then 67; a
new table starts in the first size class; the table grows when it has more
entries than buckets. -/
def example_policy : EHashPolicy :=
  { kHashSizes := fun i => [1, 3, 5, 11, 17, 37].getD i 67,
    initialSizeIdx := fun _ => 0,
    overloaded := fun numEntries curSize => decide (numEntries > curSize) }

/-- The entries of the examples: four entries with the keys 16, 21, 7, 40. -/
def example_entries : List EHEntry :=
  [⟨16, 1000⟩, ⟨21, 1008⟩, ⟨7, 1016⟩, ⟨40, 1024⟩]

end Subdiv

/-! ## `view3d_snap.cc`

The snapping operators read the scene through the context `C`.  The model takes
what they read as arguments: the grid step `gridf` (`ED_view3d_grid_view_scale`),
the world-space positions of the selection, and the selected objects, edit-mode
vertices and pose channels with the fields the operators use.  Reports,
notifiers, auto-keyframing and dependency-graph tags are left out.  `float`
values are the elements of a linearly ordered field, as above.
-/

namespace View3dSnap

open Subdiv

/-- A vector `float[3]`. -/
structure Vec3 (α : Type) where
  x : α
  y : α
  z : α
deriving DecidableEq, Repr

/-- A matrix `float[3][3]`, given by its three columns `m[0]`, `m[1]`, `m[2]`. -/
structure Mat3 (α : Type) where
  c0 : Vec3 α
  c1 : Vec3 α
  c2 : Vec3 α
deriving DecidableEq, Repr

/-- A matrix `float[4][4]` as the operators use it: on points, through its
upper 3×3 block `m3` and its translation column `loc` (`m[3]`). -/
structure Mat4 (α : Type) where
  m3 : Mat3 α
  loc : Vec3 α
deriving DecidableEq, Repr

/-- The constants, macros and library functions that `view3d_snap.cc` uses and
that are declared outside the sources; they are parameters of the model.
`INIT_MINMAX_min` and `INIT_MINMAX_max` are the values the macro `INIT_MINMAX`
stores in every component of `min` and of `max`. -/
structure Env (α : Type) where
  V3D_AROUND_CENTER_BOUNDS : Int
  V3D_AROUND_ACTIVE : Int
  OB_LOCK_LOCX : Nat
  OB_LOCK_LOCY : Nat
  OB_LOCK_LOCZ : Nat
  INIT_MINMAX_min : α
  INIT_MINMAX_max : α
  invert_m3_m3 : Mat3 α → Mat3 α
  invert_m4_m4 : Mat4 α → Mat4 α

section Float

variable {α : Type} [LinearOrderedField α]

/-- Modelled from the spec: the vector helper `add_v3_v3v3` (`r = a + b`; with
`r = a` it is `add_v3_v3`), of the math library that is not among the sources. -/
def add_v3_v3v3 (a b : Vec3 α) : Vec3 α := ⟨a.x + b.x, a.y + b.y, a.z + b.z⟩

/-- Modelled from the spec: the vector helper `sub_v3_v3v3` (`r = a - b`; with
`r = a` it is `sub_v3_v3`), of the math library that is not among the sources. -/
def sub_v3_v3v3 (a b : Vec3 α) : Vec3 α := ⟨a.x - b.x, a.y - b.y, a.z - b.z⟩

/-- Modelled from the spec: the vector helper `mul_v3_fl` (`r *= f`), of the math
library that is not among the sources. -/
def mul_v3_fl (r : Vec3 α) (f : α) : Vec3 α := ⟨r.x * f, r.y * f, r.z * f⟩

/-- Modelled from the spec: the vector helper `mid_v3_v3v3`
(`r[i] = 0.5f * (a[i] + b[i])`), of the math library that is not among the
sources. -/
def mid_v3_v3v3 (a b : Vec3 α) : Vec3 α :=
  ⟨0.5 * (a.x + b.x), 0.5 * (a.y + b.y), 0.5 * (a.z + b.z)⟩

/-- Modelled from the spec: the vector helper `zero_v3`, of the math library that
is not among the sources. -/
def zero_v3 : Vec3 α := ⟨0, 0, 0⟩

/-- Modelled from the spec: the helper `mul_m3_v3` / `mul_v3_m3v3`, the product
of a 3×3 matrix with a vector, of the math library that is not among the
sources. -/
def mul_m3_v3 (m : Mat3 α) (v : Vec3 α) : Vec3 α :=
  ⟨m.c0.x * v.x + m.c1.x * v.y + m.c2.x * v.z,
   m.c0.y * v.x + m.c1.y * v.y + m.c2.y * v.z,
   m.c0.z * v.x + m.c1.z * v.y + m.c2.z * v.z⟩

/-- Modelled from the spec: the helper `mul_m4_v3` / `mul_v3_m4v3`, the image of
a point under a 4×4 matrix, of the math library that is not among the sources. -/
def mul_m4_v3 (m : Mat4 α) (v : Vec3 α) : Vec3 α :=
  add_v3_v3v3 (mul_m3_v3 m.m3 v) m.loc

/-- Modelled from the spec: one component of the helper `minmax_v3v3_v3`, on
`min`: `if (min[i] > vec[i]) min[i] = vec[i]`. -/
def minmax_min (m v : α) : α := if m > v then v else m

/-- Modelled from the spec: one component of the helper `minmax_v3v3_v3`, on
`max`: `if (max[i] < vec[i]) max[i] = vec[i]`. -/
def minmax_max (m v : α) : α := if m < v then v else m

/-! ### Snap to grid -/

section Floor

variable [FloorRing α]

/-- The expression `gridf * floorf(0.5f + x / gridf)`, which
`snap_curs_to_grid_exec` and `snap_sel_to_grid_exec` evaluate for every
coordinate. -/
def grid_point (gridf x : α) : α := gridf * ((⌊0.5 + x / gridf⌋ : Int) : α)

/-- The function `snap_curs_to_grid_exec`: the new cursor location
`scene->cursor.location`. -/
def snap_curs_to_grid_exec (gridf : α) (curs : Vec3 α) : Vec3 α :=
  ⟨grid_point gridf curs.x, grid_point gridf curs.y, grid_point gridf curs.z⟩

/-- An object of the object-mode loop of `snap_sel_to_grid_exec`: `loc` and
`protectflag` of the original object, `eval_loc` and the world location
`object_to_world().location()` of the evaluated one, and for an object with a
parent the matrix `originmat` of `BKE_object_where_is_calc_ex`. -/
structure GridObject (α : Type) where
  loc : Vec3 α
  protectflag : Nat
  eval_loc : Vec3 α
  world_location : Vec3 α
  parent : Option (Mat3 α)
deriving DecidableEq, Repr

/-- The vector `vec` of the object-mode loop of `snap_sel_to_grid_exec`, before
the parent matrix is applied:
`vec[i] = -location[i] + gridf * floorf(0.5f + location[i] / gridf)`. -/
def snap_sel_to_grid_vec (gridf : α) (location : Vec3 α) : Vec3 α :=
  ⟨-location.x + grid_point gridf location.x,
   -location.y + grid_point gridf location.y,
   -location.z + grid_point gridf location.z⟩

/-- The body of the object-mode loop of `snap_sel_to_grid_exec`: the new `loc`
of the original object. -/
def snap_sel_to_grid_object (env : Env α) (gridf : α) (ob : GridObject α) : Vec3 α :=
  let vec0 := snap_sel_to_grid_vec gridf ob.world_location
  let vec :=
    match ob.parent with
    | some originmat => mul_m3_v3 (env.invert_m3_m3 originmat) vec0
    | none => vec0
  ⟨if ob.protectflag &&& env.OB_LOCK_LOCX = 0 then ob.eval_loc.x + vec.x else ob.loc.x,
   if ob.protectflag &&& env.OB_LOCK_LOCY = 0 then ob.eval_loc.y + vec.y else ob.loc.y,
   if ob.protectflag &&& env.OB_LOCK_LOCZ = 0 then ob.eval_loc.z + vec.z else ob.loc.z⟩

end Floor

/-! ### Snap cursor to selection -/

/-- The local variables `centroid`, `min`, `max`, `count` of
`snap_curs_to_sel_ex`. -/
structure SelState (α : Type) where
  centroid : Vec3 α
  min : Vec3 α
  max : Vec3 α
  count : Int
deriving DecidableEq, Repr

/-- The state of `snap_curs_to_sel_ex` after `INIT_MINMAX(min, max)` and
`zero_v3(centroid)`. -/
def sel_init (env : Env α) : SelState α :=
  { centroid := zero_v3,
    min := ⟨env.INIT_MINMAX_min, env.INIT_MINMAX_min, env.INIT_MINMAX_min⟩,
    max := ⟨env.INIT_MINMAX_max, env.INIT_MINMAX_max, env.INIT_MINMAX_max⟩,
    count := 0 }

/-- The statements every branch of `snap_curs_to_sel_ex` runs for a selected
element with the world-space position `vec`: `add_v3_v3(centroid, vec)`,
`minmax_v3v3_v3(min, max, vec)`, and the element is counted. -/
def sel_step (s : SelState α) (vec : Vec3 α) : SelState α :=
  { centroid := add_v3_v3v3 s.centroid vec,
    min := ⟨minmax_min s.min.x vec.x, minmax_min s.min.y vec.y, minmax_min s.min.z vec.z⟩,
    max := ⟨minmax_max s.max.x vec.x, minmax_max s.max.y vec.y, minmax_max s.max.z vec.z⟩,
    count := add_int s.count 1 }

/-- The function `snap_curs_to_sel_ex`, on the world-space positions `vec` of the
selected elements (edit-mode vertices, pose bones or objects) in the order the
loops visit them.  The result is the returned flag and `r_cursor`, which is
left as it was when the function returns `false`. -/
def snap_curs_to_sel_ex (env : Env α) (positions : List (Vec3 α)) (pivot_point : Int)
    (r_cursor : Vec3 α) : Bool × Vec3 α :=
  let s := positions.foldl sel_step (sel_init env)
  if s.count = 0 then
    (false, r_cursor)
  else if pivot_point = env.V3D_AROUND_CENTER_BOUNDS then
    (true, mid_v3_v3v3 s.min s.max)
  else
    (true, mul_v3_fl s.centroid (1 / (s.count : α)))

/-! ### Snap selection to a location -/

/-- An object in edit mode, as the edit-mode loop of `snap_selected_to_location`
reads it: `skipped` tells that the loop leaves the object with `continue` (a
mesh without selected vertices, or a locked shape key); `transverts` lists
`tv->loc` for the elements of `tvs.transverts` (none when no store was
created); `bmat` is the 3×3 part of `object_to_world()` and `world_location`
its `location()`. -/
structure EditObject (α : Type) where
  skipped : Bool
  transverts : List (Vec3 α)
  bmat : Mat3 α
  world_location : Vec3 α
deriving DecidableEq, Repr

/-- A pose channel with its bone, as the pose-mode loops read it.  `bone_flag`
is `pchan->bone->flag`, `visible` the macro `PBONE_VISIBLE(arm, pchan->bone)`,
`pose_mat_loc` the row `pchan->pose_mat[3]`; `ancestors` lists the positions in
`chanbase` of the channels of `bone->parent`, of its parent, and so on;
`pose_to_bone` is the map `BKE_armature_loc_pose_to_bone(pchan, ·, ·)`, which
reads the rest pose of the bone and the pose of its parent. -/
structure PoseChannel (α : Type) where
  loc : Vec3 α
  protectflag : Nat
  bone_flag : Nat
  visible : Bool
  pose_mat_loc : Vec3 α
  ancestors : List Nat
  pose_to_bone : Vec3 α → Vec3 α

/-- An armature object in pose mode: its matrix `object_to_world()` and the
channels of `ob->pose->chanbase`. -/
structure PoseObject (α : Type) where
  object_to_world : Mat4 α
  chanbase : List (PoseChannel α)

/-- The parent of an object, as the object-mode loop reads it:
`done_recursive` is `BKE_object_flag_test_recursive(ob->parent, OB_DONE)` after
the selected objects have been tagged with `OB_DONE`, and `originmat` the
matrix `mul_m3_m4m4(originmat, parentmat, ob->parentinv)`. -/
structure ObjectParent (α : Type) where
  done_recursive : Bool
  originmat : Mat3 α
deriving DecidableEq, Repr

/-- A selected editable object, as the object-mode loop reads it:
`world_location` is `object_to_world().location()`. -/
structure SnapObject (α : Type) where
  loc : Vec3 α
  protectflag : Nat
  world_location : Vec3 α
  parent : Option (ObjectParent α)
deriving DecidableEq, Repr

/-- What `snap_selected_to_location` works on, by the mode of the context:
objects in edit mode, armatures in pose mode, or selected objects. -/
inductive SnapContext (α : Type) where
  | edit (objects : List (EditObject α))
  | pose (objects : List (PoseObject α))
  | object (objects : List (SnapObject α))

/-- The bone flags of the pose-mode loops, declared outside the sources;
parameters of the model. -/
structure BoneFlags where
  BONE_SELECTED : Nat
  BONE_CONNECTED : Nat
  BONE_TRANSFORM : Nat
deriving DecidableEq, Repr

/-- The vector `center_global` of `snap_selected_to_location` when `use_offset`
is set: the active centre when the pivot is `V3D_AROUND_ACTIVE` and
`snap_calc_active_center(C, true, ·)` finds one (`active_center`), and what
`snap_curs_to_sel_ex` writes otherwise (nothing for an empty selection: the
vector keeps its indeterminate start value `uninit`). -/
def snap_center_global (env : Env α) (active_center : Option (Vec3 α))
    (positions : List (Vec3 α)) (uninit : Vec3 α) (pivot_point : Int) : Vec3 α :=
  if pivot_point = env.V3D_AROUND_ACTIVE then
    match active_center with
    | some center => center
    | none => (snap_curs_to_sel_ex env positions pivot_point uninit).2
  else
    (snap_curs_to_sel_ex env positions pivot_point uninit).2

/-- The vector `offset_global` of `snap_selected_to_location`:
`sub_v3_v3v3(offset_global, snap_target_global, center_global)` when
`use_offset` is set, and the indeterminate start value otherwise. -/
def snap_offset_global (env : Env α) (active_center : Option (Vec3 α))
    (positions : List (Vec3 α)) (uninit : Vec3 α) (snap_target_global : Vec3 α)
    (use_offset : Bool) (pivot_point : Int) : Vec3 α :=
  if use_offset then
    sub_v3_v3v3 snap_target_global
      (snap_center_global env active_center positions uninit pivot_point)
  else
    uninit

/-- The body of the edit-mode loop of `snap_selected_to_location`. -/
def snap_selected_edit_object (env : Env α) (snap_target_global offset_global : Vec3 α)
    (use_offset : Bool) (obedit : EditObject α) : EditObject α :=
  if obedit.skipped then
    obedit
  else if obedit.transverts.length ≠ 0 then
    let imat := env.invert_m3_m3 obedit.bmat
    let snap_target_local :=
      mul_m3_v3 imat (sub_v3_v3v3 snap_target_global obedit.world_location)
    if use_offset then
      let offset_local := mul_m3_v3 imat offset_global
      { obedit with
        transverts := obedit.transverts.map (fun loc => add_v3_v3v3 loc offset_local) }
    else
      { obedit with transverts := obedit.transverts.map (fun _ => snap_target_local) }
  else
    obedit

/-- The first pose-mode loop: `BONE_TRANSFORM` is set on the bone of a channel
that is selected, visible and not connected, and cleared on the others
(`flag &= ~BONE_TRANSFORM` clears the bits `flag & BONE_TRANSFORM`). -/
def pose_tag_transform (bf : BoneFlags) (pchan : PoseChannel α) : PoseChannel α :=
  if pchan.bone_flag &&& bf.BONE_SELECTED ≠ 0 ∧ pchan.visible = true ∧
      pchan.bone_flag &&& bf.BONE_CONNECTED = 0 then
    { pchan with bone_flag := pchan.bone_flag ||| bf.BONE_TRANSFORM }
  else
    { pchan with bone_flag := pchan.bone_flag ^^^ (pchan.bone_flag &&& bf.BONE_TRANSFORM) }

/-- Modelled from the spec: `BKE_armature_bone_flag_test_recursive` on the
parent of a bone (`false` for a bone without parent): some bone of the chain of
parents has a bit of the flag. -/
def parent_flag_test_recursive (chanbase : List (PoseChannel α)) (ancestors : List Nat)
    (flag : Nat) : Bool :=
  ancestors.any (fun i =>
    match chanbase.get? i with
    | some parent => decide (parent.bone_flag &&& flag ≠ 0)
    | none => false)

/-- The body of the second pose-mode loop, for one channel of the tagged
channels `chanbase` of an armature. -/
def snap_selected_pose_channel (env : Env α) (bf : BoneFlags)
    (object_to_world world_to_object : Mat4 α) (snap_target_local offset_global : Vec3 α)
    (use_offset use_toolsettings : Bool) (chanbase : List (PoseChannel α))
    (pchan : PoseChannel α) : PoseChannel α :=
  if pchan.bone_flag &&& bf.BONE_TRANSFORM ≠ 0 ∧
      parent_flag_test_recursive chanbase pchan.ancestors bf.BONE_TRANSFORM = false then
    let cursor_pose :=
      if use_offset then
        pchan.pose_to_bone
          (mul_m4_v3 world_to_object
            (add_v3_v3v3 (mul_m4_v3 object_to_world pchan.pose_mat_loc) offset_global))
      else
        pchan.pose_to_bone snap_target_local
    if use_toolsettings then
      { pchan with
        loc :=
          ⟨if pchan.protectflag &&& env.OB_LOCK_LOCX = 0 then cursor_pose.x else pchan.loc.x,
           if pchan.protectflag &&& env.OB_LOCK_LOCY = 0 then cursor_pose.y else pchan.loc.y,
           if pchan.protectflag &&& env.OB_LOCK_LOCZ = 0 then cursor_pose.z else pchan.loc.z⟩ }
    else
      { pchan with loc := cursor_pose }
  else
    pchan

/-- The body of the loop over the armatures in pose mode: the channels are
tagged, moved, and `BONE_TRANSFORM` is cleared again. -/
def snap_selected_pose_object (env : Env α) (bf : BoneFlags)
    (snap_target_global offset_global : Vec3 α) (use_offset use_toolsettings : Bool)
    (ob : PoseObject α) : PoseObject α :=
  let world_to_object := env.invert_m4_m4 ob.object_to_world
  let snap_target_local := mul_m4_v3 world_to_object snap_target_global
  let tagged := ob.chanbase.map (pose_tag_transform bf)
  let moved := tagged.map
    (snap_selected_pose_channel env bf ob.object_to_world world_to_object snap_target_local
      offset_global use_offset use_toolsettings tagged)
  { ob with
    chanbase := moved.map (fun pchan =>
      { pchan with bone_flag := pchan.bone_flag ^^^ (pchan.bone_flag &&& bf.BONE_TRANSFORM) }) }

/-- The body of the object-mode loop of `snap_selected_to_location`. -/
def snap_selected_object (env : Env α) (snap_target_global offset_global : Vec3 α)
    (use_offset use_toolsettings : Bool) (ob : SnapObject α) : SnapObject α :=
  if (match ob.parent with
      | some parent => parent.done_recursive
      | none => false) = true then
    ob
  else
    let cursor_parent :=
      sub_v3_v3v3
        (if use_offset then add_v3_v3v3 ob.world_location offset_global
         else snap_target_global)
        ob.world_location
    let cursor_parent :=
      match ob.parent with
      | some parent => mul_m3_v3 (env.invert_m3_m3 parent.originmat) cursor_parent
      | none => cursor_parent
    if use_toolsettings then
      { ob with
        loc :=
          ⟨if ob.protectflag &&& env.OB_LOCK_LOCX = 0 then ob.loc.x + cursor_parent.x
             else ob.loc.x,
           if ob.protectflag &&& env.OB_LOCK_LOCY = 0 then ob.loc.y + cursor_parent.y
             else ob.loc.y,
           if ob.protectflag &&& env.OB_LOCK_LOCZ = 0 then ob.loc.z + cursor_parent.z
             else ob.loc.z⟩ }
    else
      { ob with loc := add_v3_v3v3 ob.loc cursor_parent }

/-- The function `snap_selected_to_location`: the returned flag and the context
after the call.  `active_center`, `positions` and `uninit` are as in
`snap_center_global`. -/
def snap_selected_to_location (env : Env α) (bf : BoneFlags)
    (active_center : Option (Vec3 α)) (positions : List (Vec3 α)) (uninit : Vec3 α)
    (ctx : SnapContext α) (snap_target_global : Vec3 α) (use_offset : Bool)
    (pivot_point : Int) (use_toolsettings : Bool) : Bool × SnapContext α :=
  let offset_global :=
    snap_offset_global env active_center positions uninit snap_target_global use_offset
      pivot_point
  match ctx with
  | .edit objects =>
    (true, .edit (objects.map
      (snap_selected_edit_object env snap_target_global offset_global use_offset)))
  | .pose objects =>
    (true, .pose (objects.map
      (snap_selected_pose_object env bf snap_target_global offset_global use_offset
        use_toolsettings)))
  | .object objects =>
    (true, .object (objects.map
      (snap_selected_object env snap_target_global offset_global use_offset
        use_toolsettings)))

/-- The function `snap_selected_to_active_exec`: `none` for `OPERATOR_CANCELLED`
and the context after the call for `OPERATOR_FINISHED`.  `active_target` is
what `snap_calc_active_center(C, false, ·)` finds. -/
def snap_selected_to_active_exec (env : Env α) (bf : BoneFlags)
    (active_target active_center : Option (Vec3 α)) (positions : List (Vec3 α))
    (uninit : Vec3 α) (ctx : SnapContext α) : Option (SnapContext α) :=
  match active_target with
  | none => none
  | some snap_target_global =>
    let r := snap_selected_to_location env bf active_center positions uninit ctx
      snap_target_global false (-1) true
    if r.1 then some r.2 else none

/-- No location axis is locked: the bits `OB_LOCK_LOCX`, `OB_LOCK_LOCY` and
`OB_LOCK_LOCZ` of the protection flags are all clear. -/
def unlocked (env : Env α) (protectflag : Nat) : Prop :=
  protectflag &&& env.OB_LOCK_LOCX = 0 ∧ protectflag &&& env.OB_LOCK_LOCY = 0 ∧
  protectflag &&& env.OB_LOCK_LOCZ = 0

instance (env : Env α) (protectflag : Nat) : Decidable (unlocked env protectflag) := by
  unfold unlocked
  infer_instance

/-- The arithmetic mean `(1/n) · Σ p_i` of the positions, as the claim words it. -/
def selection_mean (l : List (Vec3 α)) : Vec3 α :=
  ⟨(l.map Vec3.x).sum / (l.length : α), (l.map Vec3.y).sum / (l.length : α),
   (l.map Vec3.z).sum / (l.length : α)⟩

/-- The midpoint of the component-wise minimum and maximum of the positions
`p, ps`, as the claim words it. -/
def selection_bounds_mid (p : Vec3 α) (ps : List (Vec3 α)) : Vec3 α :=
  ⟨((ps.map Vec3.x).foldl min p.x + (ps.map Vec3.x).foldl max p.x) / 2,
   ((ps.map Vec3.y).foldl min p.y + (ps.map Vec3.y).foldl max p.y) / 2,
   ((ps.map Vec3.z).foldl min p.z + (ps.map Vec3.z).foldl max p.z) / 2⟩

/-- Every coordinate of the position lies between the two values that
`INIT_MINMAX` stores. -/
def within_init_minmax (env : Env α) (p : Vec3 α) : Prop :=
  (env.INIT_MINMAX_max ≤ p.x ∧ p.x ≤ env.INIT_MINMAX_min) ∧
  (env.INIT_MINMAX_max ≤ p.y ∧ p.y ≤ env.INIT_MINMAX_min) ∧
  (env.INIT_MINMAX_max ≤ p.z ∧ p.z ≤ env.INIT_MINMAX_min)

instance (env : Env α) (p : Vec3 α) : Decidable (within_init_minmax env p) := by
  unfold within_init_minmax
  infer_instance

/-- The value `s` is a nearest grid point of `x` for the grid step `g`: an
integer multiple of `g` at a distance of at most `g / 2` from `x`. -/
def nearest_grid_point (g x s : α) : Prop :=
  (∃ n : Int, s = g * (n : α)) ∧ |s - x| ≤ g / 2

/-- The values of `INIT_MINMAX` in the math library of the repository, `1.0e30f`
and `-1.0e30f`, and of the pivot and lock constants in its DNA headers; the
matrix inversions are not used by the examples. -/
def example_env : Env ℚ :=
  { V3D_AROUND_CENTER_BOUNDS := 0,
    V3D_AROUND_ACTIVE := 4,
    OB_LOCK_LOCX := 1,
    OB_LOCK_LOCY := 2,
    OB_LOCK_LOCZ := 4,
    INIT_MINMAX_min := 1000000000000000000000000000000,
    INIT_MINMAX_max := -1000000000000000000000000000000,
    invert_m3_m3 := fun m => m,
    invert_m4_m4 := fun m => m }

/-- The bone flags of the examples, with the values of the DNA headers. -/
def example_bone_flags : BoneFlags :=
  { BONE_SELECTED := 1, BONE_CONNECTED := 16, BONE_TRANSFORM := 8 }

/-- An object of the examples: no parent, no locked axis, at the origin. -/
def example_object_a : SnapObject ℚ :=
  { loc := ⟨0, 0, 0⟩, protectflag := 0, world_location := ⟨0, 0, 0⟩, parent := none }

/-- An object of the examples: no parent, no locked axis, at `(2, 4, 6)`. -/
def example_object_b : SnapObject ℚ :=
  { loc := ⟨2, 4, 6⟩, protectflag := 0, world_location := ⟨2, 4, 6⟩, parent := none }

/-- An object of the examples in edit mode, with two vertices and the identity
as its matrix. -/
def example_edit_object : EditObject ℚ :=
  { skipped := false,
    transverts := [⟨0, 0, 0⟩, ⟨1, 1, 1⟩],
    bmat := ⟨⟨1, 0, 0⟩, ⟨0, 1, 0⟩, ⟨0, 0, 1⟩⟩,
    world_location := ⟨0, 0, 0⟩ }

/-- The snap target of the examples. -/
def example_target : Vec3 ℚ := ⟨5, 5, 5⟩

end Float

end View3dSnap

/-! ## `rna_rigidbody.cc` -/

namespace RigidBody

/-- The reports of `rna_RigidBodyWorld_convex_sweep_test`, both of the type
`RPT_ERROR`: "A non convex collision shape was passed to the function ..." and
"Rigidbody world was not properly initialized ...". -/
inductive Report where
  | non_convex_shape
  | world_not_initialized
deriving DecidableEq, Repr

/-- The output parameters of the sweep test, vectors of a type `V`; `r_hit` is
the output `has_hit` of `RigidBodyWorld.convex_sweep_test`. -/
structure SweepOutput (V : Type) where
  r_location : V
  r_hitpoint : V
  r_normal : V
  r_hit : Int
deriving DecidableEq, Repr

/-- The function `rna_RigidBodyWorld_convex_sweep_test`: the output parameters
after the call and the report, if any.  `WITH_BULLET` tells how the file was
built; `physics_world` is `BKE_rigidbody_world_physics(rbw)` and
`physics_object` is `rob->shared->physics_object`, `none` for a null pointer;
`RB_world_convex_sweep_test`, of the rigid body library, is not among the
sources and is a parameter: it gets the output parameters as they are and
returns them as it leaves them. -/
def rna_RigidBodyWorld_convex_sweep_test {W B V : Type} (WITH_BULLET : Bool)
    (RB_world_convex_sweep_test : W → B → V → V → SweepOutput V → SweepOutput V)
    (physics_world : Option W) (physics_object : Option B) (ray_start ray_end : V)
    (out : SweepOutput V) : SweepOutput V × Option Report :=
  if WITH_BULLET then
    match physics_world, physics_object with
    | some world, some object =>
      let r := RB_world_convex_sweep_test world object ray_start ray_end out
      if r.r_hit = -2 then (r, some Report.non_convex_shape) else (r, none)
    | _, _ => ({ out with r_hit := -1 }, some Report.world_not_initialized)
  else
    (out, none)

end RigidBody

namespace Subdiv

/-! ## Auxiliary facts -/

section Float

variable {α : Type} [LinearOrderedField α]

theorem half_literal : (0.5 : α) = 1 / 2 := by norm_num

theorem tenth_literal : (0.1 : α) = 1 / 10 := by norm_num

theorem ten_literal : (10.0 : α) = 10 := by norm_num

/-- The value of `rotate_quad_to_corner` in the quadrant of corner 0. -/
theorem rotate_quad_to_corner_zero (u v : α) (hu : u ≤ 1 / 2) (hv : v ≤ 1 / 2) :
    rotate_quad_to_corner u v = some (0, 2 * u, 2 * v) := by
  rw [rotate_quad_to_corner, half_literal, if_pos ⟨hu, hv⟩]

/-- The value of `rotate_quad_to_corner` in the quadrant of corner 1. -/
theorem rotate_quad_to_corner_one (u v : α) (hu : 1 / 2 < u) (hv : v ≤ 1 / 2) :
    rotate_quad_to_corner u v = some (1, 2 * v, 2 * (1 - u)) := by
  rw [rotate_quad_to_corner, half_literal, if_neg (fun h => not_le.mpr hu h.1),
    if_pos ⟨hu, hv⟩]

/-- The value of `rotate_quad_to_corner` in the quadrant of corner 2. -/
theorem rotate_quad_to_corner_two (u v : α) (hu : 1 / 2 < u) (hv : 1 / 2 < v) :
    rotate_quad_to_corner u v = some (2, 2 * (1 - u), 2 * (1 - v)) := by
  rw [rotate_quad_to_corner, half_literal, if_neg (fun h => not_le.mpr hu h.1),
    if_neg (fun h => not_le.mpr hv h.2), if_pos ⟨hu, hv⟩]

/-- The value of `rotate_quad_to_corner` in the quadrant of corner 3. -/
theorem rotate_quad_to_corner_three (u v : α) (hu : u ≤ 1 / 2) (hv : 1 / 2 < v) :
    rotate_quad_to_corner u v = some (3, 2 * (1 - v), 2 * u) := by
  rw [rotate_quad_to_corner, half_literal, if_neg (fun h => not_le.mpr hv h.2),
    if_neg (fun h => not_le.mpr hv h.2), if_neg (fun h => not_lt.mpr hu h.1),
    if_pos ⟨hu, hv.le⟩]

end Float

/-! ## Coordinate remapping -/

section Float

variable {α : Type} [LinearOrderedField α]

/-- C1, the claim as stated fails: at `(u, v) = (1/4, 1/8)`, a point of the open
quadrant of corner 0, `rotate_quad_to_corner` returns corner 0 with the corner
coordinates `(1/2, 1/4)`, and `rotate_grid_to_quad` applied to that corner and
those coordinates returns `(3/8, 1/4)`, which is not `(1/4, 1/8)`. -/
theorem rotate_grid_to_quad_corner_coords_counterexample :
    open_quadrant 0 ((1 : ℝ) / 4) (1 / 8) ∧
    rotate_quad_to_corner ((1 : ℝ) / 4) (1 / 8) = some (0, 1 / 2, 1 / 4) ∧
    rotate_grid_to_quad 0 ((1 : ℝ) / 2) (1 / 4) = some (3 / 8, 1 / 4) ∧
    rotate_grid_to_quad 0 ((1 : ℝ) / 2) (1 / 4) ≠ some (1 / 4, 1 / 8) := by
  refine ⟨?_, ?_, ?_, ?_⟩
  · norm_num [open_quadrant]
  · rw [rotate_quad_to_corner_zero _ _ (by norm_num) (by norm_num)]
    norm_num
  · norm_num [rotate_grid_to_quad]
  · norm_num [rotate_grid_to_quad]

/-- C1, amended: for every corner index `c` and every `(u, v)` in the open
quadrant of corner `c`, `rotate_quad_to_corner u v` returns corner `c` with
corner coordinates `(cu, cv)`, and `rotate_grid_to_quad` applied to `c` and to
the grid coordinates `ptex_face_uv_to_grid_uv cu cv` of that point returns
`(u, v)`. -/
theorem rotate_grid_to_quad_of_quad_to_corner_grid (c : Int) (u v : α)
    (h : open_quadrant c u v) :
    ∃ cu cv, rotate_quad_to_corner u v = some (c, cu, cv) ∧
      rotate_grid_to_quad c (ptex_face_uv_to_grid_uv cu cv).1
        (ptex_face_uv_to_grid_uv cu cv).2 = some (u, v) := by
  unfold open_quadrant at h
  rw [half_literal] at h
  rcases h with ⟨rfl, _, hu, _, hv⟩ | ⟨rfl, hu, _, _, hv⟩ | ⟨rfl, hu, _, hv, _⟩ |
    ⟨rfl, _, hu, hv, _⟩
  · refine ⟨_, _, rotate_quad_to_corner_zero u v hu.le hv.le, ?_⟩
    simp only [rotate_grid_to_quad, ptex_face_uv_to_grid_uv, half_literal, if_true]
    congr 2 <;> ring
  · refine ⟨_, _, rotate_quad_to_corner_one u v hu hv.le, ?_⟩
    simp only [rotate_grid_to_quad, ptex_face_uv_to_grid_uv, half_literal]
    norm_num
    constructor <;> ring
  · refine ⟨_, _, rotate_quad_to_corner_two u v hu hv, ?_⟩
    simp only [rotate_grid_to_quad, ptex_face_uv_to_grid_uv, half_literal]
    norm_num
    constructor <;> ring
  · refine ⟨_, _, rotate_quad_to_corner_three u v hu.le hv, ?_⟩
    simp only [rotate_grid_to_quad, ptex_face_uv_to_grid_uv, half_literal]
    norm_num
    constructor <;> ring

/-- Witness of C1 (amended) at `(u, v) = (3/4, 1/8)`, a point of the open
quadrant of corner 1. -/
theorem rotate_grid_to_quad_of_quad_to_corner_grid_witness :
    open_quadrant 1 ((3 : ℚ) / 4) (1 / 8) ∧
    ∃ cu cv, rotate_quad_to_corner ((3 : ℚ) / 4) (1 / 8) = some (1, cu, cv) ∧
      rotate_grid_to_quad 1 (ptex_face_uv_to_grid_uv cu cv).1
        (ptex_face_uv_to_grid_uv cu cv).2 = some ((3 : ℚ) / 4, 1 / 8) :=
  ⟨by norm_num [open_quadrant],
   rotate_grid_to_quad_of_quad_to_corner_grid 1 ((3 : ℚ) / 4) (1 / 8)
     (by norm_num [open_quadrant])⟩

/-- C2: `ptex_face_uv_to_grid_uv` and `grid_uv_to_ptex_face_uv` are mutually
inverse: either composition returns its argument `(u, v)`, for every `(u, v)`
and so in particular on the unit square `[0,1]²`. -/
theorem ptex_face_uv_grid_uv_round_trip (u v : α) :
    grid_uv_to_ptex_face_uv (ptex_face_uv_to_grid_uv u v).1
        (ptex_face_uv_to_grid_uv u v).2 = (u, v) ∧
    ptex_face_uv_to_grid_uv (grid_uv_to_ptex_face_uv u v).1
        (grid_uv_to_ptex_face_uv u v).2 = (u, v) := by
  simp [grid_uv_to_ptex_face_uv, ptex_face_uv_to_grid_uv]

/-- C3: for every `(u, v)` of the unit square `[0,1]²`, `rotate_quad_to_corner`
returns a corner index among 0, 1, 2, 3 and corner coordinates that both lie in
`[0,1]`. -/
theorem rotate_quad_to_corner_range (u v : α) (hu : unit_interval u)
    (hv : unit_interval v) :
    ∃ c cu cv, rotate_quad_to_corner u v = some (c, cu, cv) ∧
      (c = 0 ∨ c = 1 ∨ c = 2 ∨ c = 3) ∧ unit_interval cu ∧ unit_interval cv := by
  unfold unit_interval at *
  obtain ⟨hu0, hu1⟩ := hu
  obtain ⟨hv0, hv1⟩ := hv
  rcases le_or_lt u (1 / 2) with h1 | h1 <;> rcases le_or_lt v (1 / 2) with h2 | h2
  · exact ⟨_, _, _, rotate_quad_to_corner_zero u v h1 h2, Or.inl rfl,
      ⟨by linarith, by linarith⟩, ⟨by linarith, by linarith⟩⟩
  · exact ⟨_, _, _, rotate_quad_to_corner_three u v h1 h2, Or.inr (Or.inr (Or.inr rfl)),
      ⟨by linarith, by linarith⟩, ⟨by linarith, by linarith⟩⟩
  · exact ⟨_, _, _, rotate_quad_to_corner_one u v h1 h2, Or.inr (Or.inl rfl),
      ⟨by linarith, by linarith⟩, ⟨by linarith, by linarith⟩⟩
  · exact ⟨_, _, _, rotate_quad_to_corner_two u v h1 h2, Or.inr (Or.inr (Or.inl rfl)),
      ⟨by linarith, by linarith⟩, ⟨by linarith, by linarith⟩⟩

/-- Witness of C3 at `(u, v) = (1, 1/4)`. -/
theorem rotate_quad_to_corner_range_witness :
    unit_interval (1 : ℚ) ∧ unit_interval ((1 : ℚ) / 4) ∧
    ∃ c cu cv, rotate_quad_to_corner (1 : ℚ) (1 / 4) = some (c, cu, cv) ∧
      (c = 0 ∨ c = 1 ∨ c = 2 ∨ c = 3) ∧ unit_interval cu ∧ unit_interval cv :=
  ⟨by norm_num [unit_interval], by norm_num [unit_interval],
   rotate_quad_to_corner_range (1 : ℚ) (1 / 4) (by norm_num [unit_interval])
     (by norm_num [unit_interval])⟩

/-- C4, the claim as stated fails: `(u, v) = (1/2, 3/4)` lies in the unit square
on the midline `u = 0.5`, and `rotate_quad_to_corner` returns corner 3 there;
`(u, v) = (3/4, 1/2)` lies on the midline `v = 0.5`, and the corner is 1. -/
theorem rotate_quad_to_corner_midline_counterexample :
    unit_interval ((1 : ℝ) / 2) ∧ unit_interval ((3 : ℝ) / 4) ∧ (1 : ℝ) / 2 = 0.5 ∧
    rotate_quad_to_corner ((1 : ℝ) / 2) (3 / 4) = some (3, 1 / 2, 1) ∧
    rotate_quad_to_corner ((3 : ℝ) / 4) (1 / 2) = some (1, 1, 1 / 2) := by
  refine ⟨by norm_num [unit_interval], by norm_num [unit_interval], by norm_num, ?_, ?_⟩
  · rw [rotate_quad_to_corner_three _ _ (by norm_num) (by norm_num)]
    norm_num
  · rw [rotate_quad_to_corner_one _ _ (by norm_num) (by norm_num)]
    norm_num

/-- C4, amended: for every `(u, v)` on a midline (`u = 0.5` or `v = 0.5`),
`rotate_quad_to_corner` returns corner 0 when `u ≤ 0.5` and `v ≤ 0.5`, corner 1
when `u > 0.5` (the rest of the midline `v = 0.5`) and corner 3 when `v > 0.5`
(the rest of the midline `u = 0.5`); corner 2 is never returned on a midline. -/
theorem rotate_quad_to_corner_midline (u v : α) (hmid : u = 0.5 ∨ v = 0.5) :
    ∃ c cu cv, rotate_quad_to_corner u v = some (c, cu, cv) ∧
      (u ≤ 0.5 ∧ v ≤ 0.5 → c = 0) ∧ (u > 0.5 → c = 1) ∧ (v > 0.5 → c = 3) ∧
      c ≠ 2 := by
  rw [half_literal] at *
  rcases le_or_lt u (1 / 2) with h1 | h1 <;> rcases le_or_lt v (1 / 2) with h2 | h2
  · exact ⟨_, _, _, rotate_quad_to_corner_zero u v h1 h2, fun _ => rfl,
      fun h => absurd h (not_lt.mpr h1), fun h => absurd h (not_lt.mpr h2), by decide⟩
  · exact ⟨_, _, _, rotate_quad_to_corner_three u v h1 h2,
      fun h => absurd h2 (not_lt.mpr h.2), fun h => absurd h (not_lt.mpr h1),
      fun _ => rfl, by decide⟩
  · exact ⟨_, _, _, rotate_quad_to_corner_one u v h1 h2,
      fun h => absurd h1 (not_lt.mpr h.1), fun _ => rfl,
      fun h => absurd h (not_lt.mpr h2), by decide⟩
  · rcases hmid with h | h
    · exact absurd h (ne_of_gt h1)
    · exact absurd h (ne_of_gt h2)

/-- Witness of C4 (amended) at `(u, v) = (1/2, 1/4)`, on the midline `u = 0.5`. -/
theorem rotate_quad_to_corner_midline_witness :
    ((1 : ℚ) / 2 = 0.5 ∨ (1 : ℚ) / 4 = 0.5) ∧
    ∃ c cu cv, rotate_quad_to_corner ((1 : ℚ) / 2) (1 / 4) = some (c, cu, cv) ∧
      ((1 : ℚ) / 2 ≤ 0.5 ∧ (1 : ℚ) / 4 ≤ 0.5 → c = 0) ∧ ((1 : ℚ) / 2 > 0.5 → c = 1) ∧
      ((1 : ℚ) / 4 > 0.5 → c = 3) ∧ c ≠ 2 :=
  ⟨Or.inl (by norm_num),
   rotate_quad_to_corner_midline ((1 : ℚ) / 2) (1 / 4) (Or.inl (by norm_num))⟩

/-- C5: `ptex_face_uv_to_grid_uv` returns `grid_u = 1 - ptex_v` and
`grid_v = 1 - ptex_u`, and `grid_uv_to_ptex_face_uv` returns
`ptex_u = 1 - grid_v` and `ptex_v = 1 - grid_u`: the two functions are the same
diagonal mirror. -/
theorem ptex_face_uv_to_grid_uv_mirror (a b : α) :
    (ptex_face_uv_to_grid_uv a b).1 = 1 - b ∧ (ptex_face_uv_to_grid_uv a b).2 = 1 - a ∧
    (grid_uv_to_ptex_face_uv a b).1 = 1 - b ∧ (grid_uv_to_ptex_face_uv a b).2 = 1 - a ∧
    grid_uv_to_ptex_face_uv a b = ptex_face_uv_to_grid_uv a b :=
  ⟨rfl, rfl, rfl, rfl, rfl⟩

end Float

/-! ## Grid size -/

/-- Outside the valid levels the formula fails: level 32 shifts into the sign
bit, and level 0 shifts by a negative count. -/
theorem grid_size_from_level_out_of_range :
    grid_size_from_level 32 = some (-2147483647) ∧ grid_size_from_level 0 = none := by
  decide

/-- C6: for every level `n` with `1 ≤ n ≤ 31`, `grid_size_from_level n`, computed
on 32-bit integers, is `2 ^ (n - 1) + 1`; the values at levels 1 and 2 are 2
and 3. -/
theorem grid_size_from_level_eq (n : Int) (h1 : 1 ≤ n) (h31 : n ≤ 31) :
    grid_size_from_level n = some (2 ^ (n - 1).toNat + 1) ∧
    grid_size_from_level 1 = some 2 ∧ grid_size_from_level 2 = some 3 := by
  refine ⟨?_, by decide, by decide⟩
  interval_cases n <;> decide

/-- Witness of C6 at level 31, the largest valid one. -/
theorem grid_size_from_level_eq_witness :
    (1 : Int) ≤ 31 ∧ (31 : Int) ≤ 31 ∧
    grid_size_from_level 31 = some (2 ^ ((31 : Int) - 1).toNat + 1) ∧
    grid_size_from_level 1 = some 2 ∧ grid_size_from_level 2 = some 3 :=
  ⟨by decide, by decide, grid_size_from_level_eq 31 (by decide) (by decide)⟩

/-- C10: for every level from 1 to `CCGSUBSURF_LEVEL_MAX`, the shift
`1 << (level - 1)` and the sum `(1 << (level - 1)) + 1` are representable in a
32-bit `int` (no overflow), `grid_size_from_level` returns exactly that sum, the
result lies between 2 and 1025, and its square is representable in a 32-bit
`int` too, so that the 32-bit product is the exact square. -/
theorem grid_size_from_level_representable (level : Int) (h1 : 1 ≤ level)
    (hmax : level ≤ CCGSUBSURF_LEVEL_MAX) :
    fits_int (2 ^ (level - 1).toNat) ∧ fits_int (2 ^ (level - 1).toNat + 1) ∧
    ∃ g, grid_size_from_level level = some g ∧ g = 2 ^ (level - 1).toNat + 1 ∧
      2 ≤ g ∧ g ≤ 1025 ∧ fits_int (g * g) ∧ mul_int g g = g * g := by
  unfold CCGSUBSURF_LEVEL_MAX at hmax
  interval_cases level <;> exact ⟨by decide, by decide, _, rfl, by decide⟩

/-- Witness of C10 at level 11, the limit. -/
theorem grid_size_from_level_representable_witness :
    (1 : Int) ≤ 11 ∧ (11 : Int) ≤ CCGSUBSURF_LEVEL_MAX ∧
    fits_int (2 ^ ((11 : Int) - 1).toNat) ∧ fits_int (2 ^ ((11 : Int) - 1).toNat + 1) ∧
    ∃ g, grid_size_from_level 11 = some g ∧ g = 2 ^ ((11 : Int) - 1).toNat + 1 ∧
      2 ≤ g ∧ g ≤ 1025 ∧ fits_int (g * g) ∧ mul_int g g = g * g :=
  ⟨by decide, by decide,
   grid_size_from_level_representable 11 (by decide) (by decide)⟩

/-! ## Crease and sharpness -/

section Float

variable {α : Type} [LinearOrderedField α]

/-- C7: on `[0,1]`, with `sqrt` the non-negative real square root,
`sharpness_to_crease (crease_to_sharpness x) = x` and
`crease_to_sharpness (sharpness_to_crease x) = x`. -/
theorem crease_sharpness_inverse (x : ℝ) (hx : unit_interval x) :
    sharpness_to_crease Real.sqrt (crease_to_sharpness x) = x ∧
    crease_to_sharpness (sharpness_to_crease Real.sqrt x) = x := by
  obtain ⟨h0, _⟩ := hx
  unfold sharpness_to_crease crease_to_sharpness
  rw [tenth_literal, ten_literal]
  constructor
  · have h : x * x * 10 * (1 / 10) = x * x := by ring
    rw [h, Real.sqrt_mul_self h0]
  · rw [Real.mul_self_sqrt (by positivity)]
    ring

/-- Witness of C7 at `x = 1`. -/
theorem crease_sharpness_inverse_witness :
    unit_interval (1 : ℝ) ∧
    sharpness_to_crease Real.sqrt (crease_to_sharpness (1 : ℝ)) = 1 ∧
    crease_to_sharpness (sharpness_to_crease Real.sqrt (1 : ℝ)) = 1 :=
  ⟨by norm_num [unit_interval], crease_sharpness_inverse 1 (by norm_num [unit_interval])⟩

/-- C8: `crease_to_sharpness c = c² · 10` for every crease `c`; the values at 0
and 1 are 0 and 10, and a crease in `[0,1]` is mapped to a sharpness in
`[0,10]`. -/
theorem crease_to_sharpness_eq (c : α) :
    crease_to_sharpness c = c ^ 2 * 10 ∧
    crease_to_sharpness (0 : α) = 0 ∧ crease_to_sharpness (1 : α) = 10 ∧
    (unit_interval c → 0 ≤ crease_to_sharpness c ∧ crease_to_sharpness c ≤ 10) := by
  unfold crease_to_sharpness unit_interval
  rw [ten_literal]
  refine ⟨by ring, by ring, by ring, ?_⟩
  rintro ⟨h0, h1⟩
  constructor
  · positivity
  · nlinarith

/-- Witness of C8 at `c = 1/2`. -/
theorem crease_to_sharpness_eq_witness :
    unit_interval ((1 : ℚ) / 2) ∧
    crease_to_sharpness ((1 : ℚ) / 2) = 5 / 2 ∧
    (0 : ℚ) ≤ crease_to_sharpness ((1 : ℚ) / 2) ∧
    crease_to_sharpness ((1 : ℚ) / 2) ≤ 10 := by
  have h : unit_interval ((1 : ℚ) / 2) := by norm_num [unit_interval]
  have hc := crease_to_sharpness_eq ((1 : ℚ) / 2)
  refine ⟨h, ?_, (hc.2.2.2 h).1, (hc.2.2.2 h).2⟩
  rw [hc.1]
  norm_num

/-- C9: the conversions are monotonic: `crease_to_sharpness c1 ≤
crease_to_sharpness c2` for `c1 ≤ c2` in `[0,1]`, and, with `sqrt` the
non-negative real square root, `sharpness_to_crease s1 ≤ sharpness_to_crease s2`
for `0 ≤ s1 ≤ s2`. -/
theorem crease_sharpness_monotone (c1 c2 s1 s2 : ℝ) (hc1 : unit_interval c1)
    (_hc2 : unit_interval c2) (hc : c1 ≤ c2) (_hs1 : 0 ≤ s1) (hs : s1 ≤ s2) :
    crease_to_sharpness c1 ≤ crease_to_sharpness c2 ∧
    sharpness_to_crease Real.sqrt s1 ≤ sharpness_to_crease Real.sqrt s2 := by
  obtain ⟨h0, _⟩ := hc1
  unfold sharpness_to_crease crease_to_sharpness
  rw [tenth_literal, ten_literal]
  constructor
  · nlinarith
  · apply Real.sqrt_le_sqrt
    linarith

/-- Witness of C9 at `c1 = 0`, `c2 = 1`, `s1 = 0`, `s2 = 10`. -/
theorem crease_sharpness_monotone_witness :
    unit_interval (0 : ℝ) ∧ unit_interval (1 : ℝ) ∧ (0 : ℝ) ≤ 1 ∧ (0 : ℝ) ≤ 0 ∧
    (0 : ℝ) ≤ 10 ∧
    crease_to_sharpness (0 : ℝ) ≤ crease_to_sharpness (1 : ℝ) ∧
    sharpness_to_crease Real.sqrt (0 : ℝ) ≤ sharpness_to_crease Real.sqrt (10 : ℝ) :=
  ⟨by norm_num [unit_interval], by norm_num [unit_interval], by norm_num, le_refl 0,
   by norm_num,
   crease_sharpness_monotone 0 1 0 10 (by norm_num [unit_interval])
     (by norm_num [unit_interval]) (by norm_num) (le_refl 0) (by norm_num)⟩

end Float

/-! ## Hash table -/

theorem to_uint_of_pos (x : Int) (h0 : 0 < x) (h1 : x ≤ INT_MAX) :
    to_uint x = x.toNat ∧ 0 < x.toNat := by
  unfold to_uint
  unfold INT_MAX at h1
  omega

theorem EHASH_hash_of_pos (eh : EHash) (k : Nat) (h0 : 0 < eh.curSize)
    (h1 : eh.curSize ≤ INT_MAX) : EHASH_hash eh k = some (k % eh.curSize.toNat) := by
  obtain ⟨hu, hpos⟩ := to_uint_of_pos eh.curSize h0 h1
  unfold EHASH_hash
  rw [hu, if_neg (by omega)]

theorem EHASH_hash_congr (a b : EHash) (k : Nat) (h : a.curSize = b.curSize) :
    EHASH_hash a k = EHASH_hash b k := by
  unfold EHASH_hash
  rw [h]

theorem bucket_push_length (bs : List (List EHEntry)) (i : Nat) (e : EHEntry) :
    (bucket_push bs i e).length = bs.length := by
  induction bs generalizing i with
  | nil => rfl
  | cons b bs ih =>
    cases i with
    | zero => rfl
    | succ i => simp [bucket_push, ih]

theorem bucket_push_getD (bs : List (List EHEntry)) (i j : Nat) (e x : EHEntry)
    (h : x ∈ (bucket_push bs i e).getD j []) :
    (x = e ∧ j = i) ∨ x ∈ bs.getD j [] := by
  induction bs generalizing i j with
  | nil => simp [bucket_push] at h
  | cons b bs ih =>
    cases i with
    | zero =>
      cases j with
      | zero =>
        simp only [bucket_push, List.getD_cons_zero, List.mem_cons] at h
        rcases h with h | h
        · exact Or.inl ⟨h, rfl⟩
        · exact Or.inr (by simpa using h)
      | succ j => exact Or.inr (by simpa [bucket_push] using h)
    | succ i =>
      cases j with
      | zero => exact Or.inr (by simpa [bucket_push] using h)
      | succ j =>
        simp only [bucket_push, List.getD_cons_succ] at h
        rcases ih i j h with ⟨h1, h2⟩ | h1
        · exact Or.inl ⟨h1, by rw [h2]⟩
        · exact Or.inr (by simpa using h1)

theorem bucket_push_flatten (bs : List (List EHEntry)) (i : Nat) (e : EHEntry)
    (h : i < bs.length) : (bucket_push bs i e).flatten.Perm (e :: bs.flatten) := by
  induction bs generalizing i with
  | nil => simp at h
  | cons b bs ih =>
    cases i with
    | zero => simp [bucket_push]
    | succ i =>
      simp only [bucket_push, List.flatten_cons]
      have h2 : i < bs.length := by simpa using h
      exact ((ih i h2).append_left b).trans List.perm_middle

theorem mem_flatten_getD (bs : List (List EHEntry)) (x : EHEntry) (h : x ∈ bs.flatten) :
    ∃ i, x ∈ bs.getD i [] := by
  induction bs with
  | nil => simp at h
  | cons b bs ih =>
    simp only [List.flatten_cons, List.mem_append] at h
    rcases h with h | h
    · exact ⟨0, by simpa using h⟩
    · obtain ⟨i, hi⟩ := ih h
      exact ⟨i + 1, by simpa using hi⟩

theorem getD_sublist_flatten (bs : List (List EHEntry)) (i : Nat) :
    (bs.getD i []).Sublist bs.flatten := by
  induction bs generalizing i with
  | nil => simp
  | cons b bs ih =>
    cases i with
    | zero => simp
    | succ i =>
      simp only [List.getD_cons_succ, List.flatten_cons]
      exact (ih i).trans (List.sublist_append_right b bs.flatten)

theorem bucket_unlink_getD (bs : List (List EHEntry)) (i j key : Nat) :
    (bucket_unlink bs i key).getD j [] =
      if j = i then (bs.getD j []).eraseP (fun e => e.key == key) else bs.getD j [] := by
  induction bs generalizing i j with
  | nil => simp [bucket_unlink]
  | cons b bs ih =>
    cases i with
    | zero =>
      cases j with
      | zero => simp [bucket_unlink]
      | succ j => simp [bucket_unlink]
    | succ i =>
      cases j with
      | zero => simp [bucket_unlink]
      | succ j =>
        simp only [bucket_unlink, List.getD_cons_succ, ih, Nat.add_right_cancel_iff]

theorem EHash.holds_perm {eh : EHash} {S T : List EHEntry} (h : eh.holds S)
    (hp : S.Perm T) : eh.holds T :=
  ⟨h.1, h.2.1, h.2.2.1, h.2.2.2.1, h.2.2.2.2.trans hp⟩

theorem ehash_link_holds (eh : EHash) (S : List EHEntry) (e : EHEntry) (h : eh.holds S) :
    ∃ linked, ehash_link eh e = some linked ∧ linked.holds (e :: S) ∧
      linked.curSize = eh.curSize ∧ linked.numEntries = eh.numEntries ∧
      linked.curSizeIdx = eh.curSizeIdx := by
  obtain ⟨h0, h1, hlen, hpos, hperm⟩ := h
  have hlt : e.key % eh.curSize.toNat < eh.buckets.length := by
    rw [hlen]
    exact Nat.mod_lt _ (to_uint_of_pos _ h0 h1).2
  refine ⟨{ eh with buckets := bucket_push eh.buckets (e.key % eh.curSize.toNat) e },
    by rw [ehash_link, EHASH_hash_of_pos eh e.key h0 h1]; rfl, ?_, rfl, rfl, rfl⟩
  refine ⟨h0, h1, by simpa [bucket_push_length] using hlen, ?_, ?_⟩
  · intro i x hx
    rcases bucket_push_getD _ _ _ _ _ hx with ⟨rfl, rfl⟩ | hx
    · rfl
    · exact hpos i x hx
  · exact (bucket_push_flatten _ _ _ hlt).trans (hperm.cons e)

theorem ehash_link_fold_holds (L : List EHEntry) (eh : EHash) (S : List EHEntry)
    (h : eh.holds S) :
    ∃ r, List.foldlM ehash_link eh L = some r ∧ r.holds (L ++ S) ∧
      r.curSize = eh.curSize ∧ r.numEntries = eh.numEntries ∧
      r.curSizeIdx = eh.curSizeIdx := by
  induction L generalizing eh S with
  | nil => exact ⟨eh, rfl, h, rfl, rfl, rfl⟩
  | cons e L ih =>
    obtain ⟨linked, hl, hh, hc, hn, hi⟩ := ehash_link_holds eh S e h
    obtain ⟨r, hr, hrh, hrc, hrn, hri⟩ := ih linked (e :: S) hh
    refine ⟨r, ?_, EHash.holds_perm hrh List.perm_middle, hrc.trans hc, hrn.trans hn,
      hri.trans hi⟩
    rw [List.foldlM_cons, hl]
    exact hr

theorem empty_holds (n : Nat) (numEntries curSizeIdx : Int) (h0 : 0 < n)
    (h1 : (n : Int) ≤ INT_MAX) :
    EHash.holds { buckets := List.replicate n [], numEntries := numEntries,
                  curSize := n, curSizeIdx := curSizeIdx } [] := by
  refine ⟨?_, h1, by simp, ?_, ?_⟩
  · show (0 : Int) < (n : Int)
    exact_mod_cast h0
  · intro i x hx
    have : List.getD (List.replicate n ([] : List EHEntry)) i [] = [] := by
      rw [List.getD_eq_getElem?_getD, List.getElem?_replicate]
      split <;> rfl
    rw [this] at hx
    simp at hx
  · have : (List.replicate n ([] : List EHEntry)).flatten = [] := by
      induction n with
      | zero => rfl
      | succ n ih => simp [List.replicate_succ]
    rw [this]

theorem ccg_ehash_new_holds (p : EHashPolicy) (hp : p.valid) (est : Int) :
    (ccg_ehash_new p est).holds [] :=
  empty_holds _ _ _ (hp _).1 (hp _).2

theorem ccg_ehash_insert_holds (p : EHashPolicy) (hp : p.valid) (eh : EHash)
    (S : List EHEntry) (e : EHEntry) (h : eh.holds S) :
    ∃ r, ccg_ehash_insert p eh e = some r ∧ r.holds (e :: S) := by
  obtain ⟨linked, hl, hh, _, _, _⟩ := ehash_link_holds eh S e h
  unfold ccg_ehash_insert
  rw [hl, Option.some_bind]
  by_cases hov : p.overloaded (add_int linked.numEntries 1) linked.curSize = true
  · rw [if_pos hov]
    obtain ⟨r, hr, hrh, _, _, _⟩ := ehash_link_fold_holds linked.buckets.flatten _ []
      (empty_holds (p.kHashSizes (add_int linked.curSizeIdx 1).toNat)
        (add_int linked.numEntries 1) (add_int linked.curSizeIdx 1) (hp _).1 (hp _).2)
    refine ⟨r, hr, EHash.holds_perm hrh ?_⟩
    rw [List.append_nil]
    exact hh.2.2.2.2
  · rw [if_neg hov]
    exact ⟨_, rfl, hh⟩

theorem ccg_ehash_insert_fold_holds (p : EHashPolicy) (hp : p.valid) (L : List EHEntry)
    (eh : EHash) (S : List EHEntry) (h : eh.holds S) :
    ∃ r, List.foldlM (ccg_ehash_insert p) eh L = some r ∧ r.holds (L ++ S) := by
  induction L generalizing eh S with
  | nil => exact ⟨eh, rfl, h⟩
  | cons e L ih =>
    obtain ⟨r1, h1, hh1⟩ := ccg_ehash_insert_holds p hp eh S e h
    obtain ⟨r, hr, hrh⟩ := ih r1 (e :: S) hh1
    refine ⟨r, ?_, EHash.holds_perm hrh List.perm_middle⟩
    rw [List.foldlM_cons, h1]
    exact hr

theorem key_unique (S : List EHEntry) (hk : (S.map EHEntry.key).Nodup) (x y : EHEntry)
    (hx : x ∈ S) (hy : y ∈ S) (hxy : x.key = y.key) : x = y :=
  List.inj_on_of_nodup_map hk hx hy hxy

theorem ccg_ehash_lookup_found (eh : EHash) (S : List EHEntry) (h : eh.holds S)
    (hk : (S.map EHEntry.key).Nodup) (e : EHEntry) (he : e ∈ S) :
    ccg_ehash_lookup eh e.key = some (some e) := by
  obtain ⟨h0, h1, _, hpos, hperm⟩ := h
  unfold ccg_ehash_lookup
  rw [EHASH_hash_of_pos eh e.key h0 h1, Option.map_some']
  obtain ⟨i, hi⟩ := mem_flatten_getD eh.buckets e (hperm.mem_iff.mpr he)
  have hi2 := hpos i e hi
  rw [← hi2] at hi
  cases hf : (eh.buckets.getD (e.key % eh.curSize.toNat) []).find? (fun x => x.key == e.key) with
  | none =>
    have := List.find?_eq_none.mp hf e hi
    simp at this
  | some y =>
    have hy1 : y.key = e.key := by simpa using List.find?_some hf
    have hy2 : y ∈ S :=
      hperm.mem_iff.mp ((getD_sublist_flatten eh.buckets _).subset (List.mem_of_find?_eq_some hf))
    rw [key_unique S hk y e hy2 he hy1]

theorem ccg_ehash_lookup_missing (eh : EHash) (S : List EHEntry) (h : eh.holds S)
    (k : Nat) (hk : k ∉ S.map EHEntry.key) : ccg_ehash_lookup eh k = some none := by
  obtain ⟨h0, h1, _, _, hperm⟩ := h
  unfold ccg_ehash_lookup
  rw [EHASH_hash_of_pos eh k h0 h1, Option.map_some']
  congr 1
  rw [List.find?_eq_none]
  intro x hx hxk
  apply hk
  have hx2 : x ∈ S := hperm.mem_iff.mp ((getD_sublist_flatten eh.buckets _).subset hx)
  exact List.mem_map.mpr ⟨x, hx2, by simpa using hxk⟩

theorem find_eraseP_same (c : List EHEntry) (k : Nat) (hc : (c.map EHEntry.key).Nodup) :
    (c.eraseP (fun e => e.key == k)).find? (fun e => e.key == k) = none := by
  induction c with
  | nil => rfl
  | cons x c ih =>
    rw [List.map_cons, List.nodup_cons] at hc
    by_cases hx : x.key = k
    · rw [List.eraseP_cons_of_pos (by simpa using hx), List.find?_eq_none]
      intro y hy hyk
      apply hc.1
      rw [hx]
      exact List.mem_map.mpr ⟨y, hy, by simpa using hyk⟩
    · rw [List.eraseP_cons_of_neg (by simpa using hx),
        List.find?_cons_of_neg _ (by simpa using hx)]
      exact ih hc.2

theorem find_eraseP_other (c : List EHEntry) (k j : Nat) (hkj : j ≠ k) :
    (c.eraseP (fun e => e.key == k)).find? (fun e => e.key == j) =
      c.find? (fun e => e.key == j) := by
  induction c with
  | nil => rfl
  | cons x c ih =>
    by_cases hx : x.key = k
    · rw [List.eraseP_cons_of_pos (by simpa using hx),
        List.find?_cons_of_neg _ (by simp [hx, Ne.symm hkj])]
    · rw [List.eraseP_cons_of_neg (by simpa using hx)]
      by_cases hj : x.key = j
      · rw [List.find?_cons_of_pos _ (by simpa using hj),
          List.find?_cons_of_pos _ (by simpa using hj)]
      · rw [List.find?_cons_of_neg _ (by simpa using hj),
          List.find?_cons_of_neg _ (by simpa using hj), ih]

theorem ccg_ehash_lookup_of_pos (eh : EHash) (k : Nat) (h0 : 0 < eh.curSize)
    (h1 : eh.curSize ≤ INT_MAX) :
    ccg_ehash_lookup eh k =
      some ((eh.buckets.getD (k % eh.curSize.toNat) []).find? (fun e => e.key == k)) := by
  rw [ccg_ehash_lookup, EHASH_hash_of_pos eh k h0 h1, Option.map_some']

theorem ccg_ehash_unlink_lookup (eh : EHash) (S : List EHEntry) (h : eh.holds S)
    (hk : (S.map EHEntry.key).Nodup) (k : Nat) :
    ∃ r, ccg_ehash_unlink eh k = some r ∧ ccg_ehash_lookup r k = some none ∧
      ∀ j, j ≠ k → ccg_ehash_lookup r j = ccg_ehash_lookup eh j := by
  obtain ⟨h0, h1, _, _, hperm⟩ := h
  obtain ⟨r, hr⟩ : ∃ r : EHash, r =
      { eh with
        buckets := bucket_unlink eh.buckets (k % eh.curSize.toNat) k
        numEntries :=
          if ((eh.buckets.getD (k % eh.curSize.toNat) []).find?
              (fun e => e.key == k)).isSome then
            sub_int eh.numEntries 1
          else eh.numEntries } := ⟨_, rfl⟩
  have hsize : r.curSize = eh.curSize := by rw [hr]
  have hbuckets : r.buckets = bucket_unlink eh.buckets (k % eh.curSize.toNat) k := by rw [hr]
  have hr0 : 0 < r.curSize := by rw [hsize]; exact h0
  have hr1 : r.curSize ≤ INT_MAX := by rw [hsize]; exact h1
  refine ⟨r, by rw [ccg_ehash_unlink, EHASH_hash_of_pos eh k h0 h1, hr]; rfl, ?_, ?_⟩
  · rw [ccg_ehash_lookup_of_pos r k hr0 hr1, hbuckets, hsize, bucket_unlink_getD, if_pos rfl,
      find_eraseP_same]
    exact ((getD_sublist_flatten eh.buckets _).map EHEntry.key).nodup
      ((hperm.map EHEntry.key).nodup_iff.mpr hk)
  · intro j hj
    rw [ccg_ehash_lookup_of_pos r j hr0 hr1, ccg_ehash_lookup_of_pos eh j h0 h1, hbuckets,
      hsize, bucket_unlink_getD]
    split
    · rw [find_eraseP_other _ _ _ hj]
    · rfl

theorem example_policy_valid : example_policy.valid := by
  intro i
  unfold example_policy INT_MAX
  rcases i with _ | _ | _ | _ | _ | _ | i <;> simp

/-- C11: for every key `k` (given by its value as an unsigned integer) and every
table whose `curSize` is positive, `EHASH_hash` is defined and returns
`k mod curSize`, an index with `0 ≤ index < curSize`. -/
theorem EHASH_hash_identity_mod (eh : EHash) (k : Nat) (hpos : 0 < eh.curSize)
    (hint : fits_int eh.curSize) :
    ∃ index, EHASH_hash eh k = some index ∧ (index : Int) = (k : Int) % eh.curSize ∧
      0 ≤ (index : Int) ∧ (index : Int) < eh.curSize := by
  have hn : ((eh.curSize.toNat : Nat) : Int) = eh.curSize := Int.toNat_of_nonneg hpos.le
  have hlt := Nat.mod_lt k (to_uint_of_pos eh.curSize hpos hint.2).2
  refine ⟨k % eh.curSize.toNat, EHASH_hash_of_pos eh k hpos hint.2, ?_, by omega, by omega⟩
  rw [Int.natCast_mod, hn]

/-- Witness of C11: the key 40 in a table of 5 buckets has the hash 0. -/
theorem EHASH_hash_identity_mod_witness :
    (0 : Int) < (EHash.mk [[], [], [], [], []] 0 5 2).curSize ∧
    fits_int (EHash.mk [[], [], [], [], []] 0 5 2).curSize ∧
    ∃ index, EHASH_hash (EHash.mk [[], [], [], [], []] 0 5 2) 40 = some index ∧
      (index : Int) = ((40 : Nat) : Int) % (EHash.mk [[], [], [], [], []] 0 5 2).curSize ∧
      0 ≤ (index : Int) ∧ (index : Int) < (EHash.mk [[], [], [], [], []] 0 5 2).curSize :=
  ⟨by decide, by decide,
   EHASH_hash_identity_mod (EHash.mk [[], [], [], [], []] 0 5 2) 40 (by decide) (by decide)⟩

/-- C12: for every valid growth policy and every list of entries with pairwise
distinct keys, inserting the entries one after the other into a new table
succeeds, however often the table grows on the way, and in the resulting table
the lookup of the key of each inserted entry returns that entry, the lookup of
a key that was not inserted returns the null pointer, and after the unlinking
of any key the lookup of that key returns the null pointer while the other
inserted entries are still found. -/
theorem ccg_ehash_lookup_after_insert (p : EHashPolicy) (hp : p.valid)
    (estimatedNumEntries : Int) (entries : List EHEntry)
    (hkeys : (entries.map EHEntry.key).Nodup) :
    ∃ eh, List.foldlM (ccg_ehash_insert p) (ccg_ehash_new p estimatedNumEntries) entries
        = some eh ∧
      (∀ e ∈ entries, ccg_ehash_lookup eh e.key = some (some e)) ∧
      (∀ k, k ∉ entries.map EHEntry.key → ccg_ehash_lookup eh k = some none) ∧
      (∀ k, ∃ r, ccg_ehash_unlink eh k = some r ∧ ccg_ehash_lookup r k = some none ∧
        ∀ e ∈ entries, e.key ≠ k → ccg_ehash_lookup r e.key = some (some e)) := by
  obtain ⟨eh, hfold, hholds⟩ := ccg_ehash_insert_fold_holds p hp entries
    (ccg_ehash_new p estimatedNumEntries) [] (ccg_ehash_new_holds p hp estimatedNumEntries)
  rw [List.append_nil] at hholds
  refine ⟨eh, hfold, fun e he => ccg_ehash_lookup_found eh entries hholds hkeys e he,
    fun k hk => ccg_ehash_lookup_missing eh entries hholds k hk, fun k => ?_⟩
  obtain ⟨r, hr, hmiss, hother⟩ := ccg_ehash_unlink_lookup eh entries hholds hkeys k
  refine ⟨r, hr, hmiss, fun e he hne => ?_⟩
  rw [hother e.key hne]
  exact ccg_ehash_lookup_found eh entries hholds hkeys e he

/-- Witness of C12: the four entries of the example, inserted under the example
policy into a table of one bucket, make the table grow twice (to 3 and then to
5 buckets, size class 2). -/
theorem ccg_ehash_lookup_after_insert_witness :
    example_policy.valid ∧ (example_entries.map EHEntry.key).Nodup ∧
    (List.foldlM (ccg_ehash_insert example_policy) (ccg_ehash_new example_policy 0)
      example_entries).map (fun eh => (eh.curSize, eh.curSizeIdx)) = some (5, 2) ∧
    ∃ eh, List.foldlM (ccg_ehash_insert example_policy) (ccg_ehash_new example_policy 0)
        example_entries = some eh ∧
      (∀ e ∈ example_entries, ccg_ehash_lookup eh e.key = some (some e)) ∧
      (∀ k, k ∉ example_entries.map EHEntry.key → ccg_ehash_lookup eh k = some none) ∧
      (∀ k, ∃ r, ccg_ehash_unlink eh k = some r ∧ ccg_ehash_lookup r k = some none ∧
        ∀ e ∈ example_entries, e.key ≠ k → ccg_ehash_lookup r e.key = some (some e)) :=
  ⟨example_policy_valid, by decide, by decide,
   ccg_ehash_lookup_after_insert example_policy example_policy_valid 0 example_entries
     (by decide)⟩

end Subdiv

/-! ## Snapping -/

namespace View3dSnap

open Subdiv

section Float

variable {α : Type} [LinearOrderedField α]

theorem minmax_min_eq (m v : α) : minmax_min m v = min m v := by
  unfold minmax_min
  rcases le_or_lt m v with h | h
  · rw [if_neg (not_lt.mpr h), min_eq_left h]
  · rw [if_pos h, min_eq_right h.le]

theorem minmax_max_eq (m v : α) : minmax_max m v = max m v := by
  unfold minmax_max
  rcases le_or_lt v m with h | h
  · rw [if_neg (not_lt.mpr h), max_eq_left h]
  · rw [if_pos h, max_eq_right h.le]

theorem add_int_one (c : Int) (h0 : 0 ≤ c) (h1 : c + 1 ≤ INT_MAX) : add_int c 1 = c + 1 := by
  unfold add_int wrap_int
  unfold INT_MAX at h1
  omega

theorem sel_fold_eq (l : List (Vec3 α)) (s : SelState α) (h0 : 0 ≤ s.count)
    (h1 : s.count + (l.length : Int) ≤ INT_MAX) :
    l.foldl sel_step s =
      { centroid := ⟨s.centroid.x + (l.map Vec3.x).sum, s.centroid.y + (l.map Vec3.y).sum,
                     s.centroid.z + (l.map Vec3.z).sum⟩,
        min := ⟨(l.map Vec3.x).foldl min s.min.x, (l.map Vec3.y).foldl min s.min.y,
                (l.map Vec3.z).foldl min s.min.z⟩,
        max := ⟨(l.map Vec3.x).foldl max s.max.x, (l.map Vec3.y).foldl max s.max.y,
                (l.map Vec3.z).foldl max s.max.z⟩,
        count := s.count + (l.length : Int) } := by
  induction l generalizing s with
  | nil => simp
  | cons v l ih =>
    have hl : ((v :: l).length : Int) = (l.length : Int) + 1 := by simp
    rw [hl] at h1
    have hc : (sel_step s v).count = s.count + 1 := add_int_one s.count h0 (by omega)
    rw [List.foldl_cons, ih (sel_step s v) (by omega) (by omega), hc, hl]
    simp only [sel_step, add_v3_v3v3, minmax_min_eq, minmax_max_eq, List.map_cons,
      List.sum_cons, List.foldl_cons, add_assoc]
    congr 1
    omega

theorem grid_point_nearest [FloorRing α] (g x : α) (hg : 0 < g) :
    nearest_grid_point g x (grid_point g x) := by
  refine ⟨⟨⌊0.5 + x / g⌋, rfl⟩, ?_⟩
  have h1 := Int.floor_le (0.5 + x / g)
  have h2 := Int.lt_floor_add_one (0.5 + x / g)
  rw [half_literal] at h1 h2
  have hx : x = g * (x / g) := by field_simp
  have e : grid_point g x - x = g * (((⌊0.5 + x / g⌋ : Int) : α) - x / g) := by
    unfold grid_point
    rw [mul_sub, ← hx]
  rw [e, half_literal, abs_mul, abs_of_pos hg]
  have h3 : |((⌊1 / 2 + x / g⌋ : Int) : α) - x / g| ≤ 1 / 2 := by
    rw [abs_le]
    constructor <;> linarith
  calc g * |((⌊1 / 2 + x / g⌋ : Int) : α) - x / g| ≤ g * (1 / 2) :=
        mul_le_mul_of_nonneg_left h3 hg.le
    _ = g / 2 := by ring

/-- C13: for every grid step `g > 0`, every coordinate of the cursor location
that `snap_curs_to_grid_exec` writes is a nearest grid point of the old
coordinate, an integer multiple of `g` within `g / 2` of it; and for every
coordinate of an object location, `snap_sel_to_grid_exec` computes the vector
`vec` that leads from the location to such a grid point. -/
theorem snap_to_grid_nearest [FloorRing α] (g : α) (hg : 0 < g) (curs location : Vec3 α) :
    nearest_grid_point g curs.x (snap_curs_to_grid_exec g curs).x ∧
    nearest_grid_point g curs.y (snap_curs_to_grid_exec g curs).y ∧
    nearest_grid_point g curs.z (snap_curs_to_grid_exec g curs).z ∧
    nearest_grid_point g location.x (location.x + (snap_sel_to_grid_vec g location).x) ∧
    nearest_grid_point g location.y (location.y + (snap_sel_to_grid_vec g location).y) ∧
    nearest_grid_point g location.z (location.z + (snap_sel_to_grid_vec g location).z) := by
  have e : ∀ x : α, x + (-x + grid_point g x) = grid_point g x := fun x => by ring
  simp only [snap_sel_to_grid_vec, e]
  exact ⟨grid_point_nearest g _ hg, grid_point_nearest g _ hg, grid_point_nearest g _ hg,
    grid_point_nearest g _ hg, grid_point_nearest g _ hg, grid_point_nearest g _ hg⟩

/-- Witness of C13 for the grid step `1/2`, the cursor `(7/8, -1/3, 2)` and the
object location `(1/4, 0, -5/4)`. -/
theorem snap_to_grid_nearest_witness :
    (0 : ℚ) < 1 / 2 ∧
    nearest_grid_point (1 / 2 : ℚ) (7 / 8)
      (snap_curs_to_grid_exec (1 / 2 : ℚ) ⟨7 / 8, -1 / 3, 2⟩).x ∧
    nearest_grid_point (1 / 2 : ℚ) (-1 / 3)
      (snap_curs_to_grid_exec (1 / 2 : ℚ) ⟨7 / 8, -1 / 3, 2⟩).y ∧
    nearest_grid_point (1 / 2 : ℚ) 2
      (snap_curs_to_grid_exec (1 / 2 : ℚ) ⟨7 / 8, -1 / 3, 2⟩).z ∧
    nearest_grid_point (1 / 2 : ℚ) (1 / 4)
      (1 / 4 + (snap_sel_to_grid_vec (1 / 2 : ℚ) ⟨1 / 4, 0, -5 / 4⟩).x) ∧
    nearest_grid_point (1 / 2 : ℚ) 0
      (0 + (snap_sel_to_grid_vec (1 / 2 : ℚ) ⟨1 / 4, 0, -5 / 4⟩).y) ∧
    nearest_grid_point (1 / 2 : ℚ) (-5 / 4)
      (-5 / 4 + (snap_sel_to_grid_vec (1 / 2 : ℚ) ⟨1 / 4, 0, -5 / 4⟩).z) :=
  ⟨by norm_num, snap_to_grid_nearest (1 / 2 : ℚ) (by norm_num) ⟨7 / 8, -1 / 3, 2⟩
    ⟨1 / 4, 0, -5 / 4⟩⟩


theorem foldl_min_of_le (l : List α) (a b : α) (h : b ≤ a) :
    (b :: l).foldl min a = l.foldl min b := by
  rw [List.foldl_cons, min_eq_right h]

theorem foldl_max_of_le (l : List α) (a b : α) (h : a ≤ b) :
    (b :: l).foldl max a = l.foldl max b := by
  rw [List.foldl_cons, max_eq_right h]

theorem sel_count_cons (env : Env α) (p : Vec3 α) (ps : List (Vec3 α))
    (hlen : ((p :: ps).length : Int) ≤ INT_MAX) :
    ((p :: ps).foldl sel_step (sel_init env)).count = ((p :: ps).length : Int) ∧
    ((p :: ps).foldl sel_step (sel_init env)).count ≠ 0 := by
  rw [sel_fold_eq (p :: ps) (sel_init env) (le_refl 0) (by simpa [sel_init] using hlen)]
  simp only [sel_init, zero_add]
  constructor
  · trivial
  · simp only [List.length_cons]
    omega

/-- C14, amended: for every non-empty selection `p, ps` of fewer than `2^31`
positions, `snap_curs_to_sel_ex` returns `true`; `r_cursor` is the arithmetic
mean of the positions when the pivot is not `V3D_AROUND_CENTER_BOUNDS`, and,
when it is and every coordinate of the positions lies between the two values of
`INIT_MINMAX`, the midpoint of their component-wise minimum and maximum.  For
the empty selection the function returns `false` and leaves `r_cursor`. -/
theorem snap_curs_to_sel_ex_median (env : Env α) (p : Vec3 α) (ps : List (Vec3 α))
    (pivot_point : Int) (r_cursor : Vec3 α)
    (hlen : ((p :: ps).length : Int) ≤ INT_MAX) :
    (pivot_point ≠ env.V3D_AROUND_CENTER_BOUNDS →
      snap_curs_to_sel_ex env (p :: ps) pivot_point r_cursor =
        (true, selection_mean (p :: ps))) ∧
    (pivot_point = env.V3D_AROUND_CENTER_BOUNDS →
      (∀ q ∈ p :: ps, within_init_minmax env q) →
      snap_curs_to_sel_ex env (p :: ps) pivot_point r_cursor =
        (true, selection_bounds_mid p ps)) ∧
    snap_curs_to_sel_ex env [] pivot_point r_cursor = (false, r_cursor) := by
  obtain ⟨hc, hne⟩ := sel_count_cons env p ps hlen
  have hfold := sel_fold_eq (p :: ps) (sel_init env) (le_refl 0)
    (by simpa [sel_init] using hlen)
  have hne2 : ((p :: ps).length : Int) ≠ 0 := hc ▸ hne
  refine ⟨fun hp => ?_, fun hp hr => ?_, ?_⟩
  · simp only [snap_curs_to_sel_ex, hc, if_neg hne2, if_neg hp]
    rw [hfold]
    simp only [sel_init, zero_v3, zero_add, mul_v3_fl, selection_mean, Int.cast_natCast]
    congr 2 <;> ring
  · obtain ⟨⟨hx1, hx2⟩, ⟨hy1, hy2⟩, ⟨hz1, hz2⟩⟩ := hr p (List.mem_cons_self p ps)
    simp only [snap_curs_to_sel_ex, hc, if_neg hne2, if_pos hp]
    rw [hfold]
    simp only [sel_init, mid_v3_v3v3, selection_bounds_mid, List.map_cons, half_literal]
    rw [foldl_min_of_le _ _ _ hx2, foldl_min_of_le _ _ _ hy2, foldl_min_of_le _ _ _ hz2,
      foldl_max_of_le _ _ _ hx1, foldl_max_of_le _ _ _ hy1, foldl_max_of_le _ _ _ hz1]
    congr 2 <;> ring
  · simp [snap_curs_to_sel_ex, sel_init]

/-- Whatever the two values of `INIT_MINMAX` are, a position beyond both of them
is not the cursor that `snap_curs_to_sel_ex` computes for the selection of that
position alone with the pivot `V3D_AROUND_CENTER_BOUNDS`. -/
theorem snap_curs_to_sel_ex_bounds_beyond_init (env : Env α) (r_cursor : Vec3 α) :
    snap_curs_to_sel_ex env
        [⟨max env.INIT_MINMAX_min env.INIT_MINMAX_max + 1, 0, 0⟩]
        env.V3D_AROUND_CENTER_BOUNDS r_cursor ≠
      (true, selection_bounds_mid
        ⟨max env.INIT_MINMAX_min env.INIT_MINMAX_max + 1, 0, 0⟩ []) := by
  have h1 : env.INIT_MINMAX_min < max env.INIT_MINMAX_min env.INIT_MINMAX_max + 1 :=
    lt_of_le_of_lt (le_max_left _ _) (lt_add_one _)
  have h2 : env.INIT_MINMAX_max < max env.INIT_MINMAX_min env.INIT_MINMAX_max + 1 :=
    lt_of_le_of_lt (le_max_right _ _) (lt_add_one _)
  have hc : add_int 0 1 = 1 := by decide
  intro h
  have hx := congrArg (fun r => r.2.x) h
  simp only [snap_curs_to_sel_ex, List.foldl_cons, List.foldl_nil, sel_step, sel_init, hc,
    one_ne_zero, if_false, if_true, mid_v3_v3v3, selection_bounds_mid, List.map_nil,
    minmax_min_eq, minmax_max_eq, min_eq_left h1.le, max_eq_right h2.le, half_literal] at hx
  linarith

/-- C14, the claim as stated fails: with the values `1.0e30f` and `-1.0e30f` of
`INIT_MINMAX` and the pivot `V3D_AROUND_CENTER_BOUNDS`, the selection of the one
position `(2·10^30, 0, 0)` gives the cursor `(1.5·10^30, 0, 0)`, while the
midpoint of the minimum and the maximum of the selection is the position
itself. -/
theorem snap_curs_to_sel_ex_bounds_counterexample :
    snap_curs_to_sel_ex example_env [⟨2000000000000000000000000000000, 0, 0⟩]
        example_env.V3D_AROUND_CENTER_BOUNDS ⟨0, 0, 0⟩ =
      (true, ⟨1500000000000000000000000000000, 0, 0⟩) ∧
    selection_bounds_mid (⟨2000000000000000000000000000000, 0, 0⟩ : Vec3 ℚ) [] =
      ⟨2000000000000000000000000000000, 0, 0⟩ ∧
    (⟨1500000000000000000000000000000, 0, 0⟩ : Vec3 ℚ) ≠
      ⟨2000000000000000000000000000000, 0, 0⟩ := by
  refine ⟨?_, ?_, by decide⟩
  · norm_num [snap_curs_to_sel_ex, example_env, sel_init, sel_step, add_int, wrap_int,
      minmax_min, minmax_max, mid_v3_v3v3, zero_v3, add_v3_v3v3]
  · norm_num [selection_bounds_mid]

/-- Witness of C14: the positions `(0, 0, 0)` and `(2, 4, 6)` have the mean
`(1, 2, 3)`, and the midpoint of their bounds is `(1, 2, 3)` too. -/
theorem snap_curs_to_sel_ex_median_witness :
    (([⟨0, 0, 0⟩, ⟨2, 4, 6⟩] : List (Vec3 ℚ)).length : Int) ≤ INT_MAX ∧
    ((3 : Int) ≠ example_env.V3D_AROUND_CENTER_BOUNDS →
      snap_curs_to_sel_ex example_env [⟨0, 0, 0⟩, ⟨2, 4, 6⟩] 3 ⟨9, 9, 9⟩ =
        (true, selection_mean [⟨0, 0, 0⟩, ⟨2, 4, 6⟩])) ∧
    ((3 : Int) = example_env.V3D_AROUND_CENTER_BOUNDS →
      (∀ q ∈ ([⟨0, 0, 0⟩, ⟨2, 4, 6⟩] : List (Vec3 ℚ)), within_init_minmax example_env q) →
      snap_curs_to_sel_ex example_env [⟨0, 0, 0⟩, ⟨2, 4, 6⟩] 3 ⟨9, 9, 9⟩ =
        (true, selection_bounds_mid ⟨0, 0, 0⟩ [⟨2, 4, 6⟩])) ∧
    snap_curs_to_sel_ex example_env [] 3 ⟨9, 9, 9⟩ = (false, ⟨9, 9, 9⟩) ∧
    selection_mean ([⟨0, 0, 0⟩, ⟨2, 4, 6⟩] : List (Vec3 ℚ)) = ⟨1, 2, 3⟩ :=
  ⟨by decide,
   (snap_curs_to_sel_ex_median example_env ⟨0, 0, 0⟩ [⟨2, 4, 6⟩] 3 ⟨9, 9, 9⟩ (by decide)).1,
   (snap_curs_to_sel_ex_median example_env ⟨0, 0, 0⟩ [⟨2, 4, 6⟩] 3 ⟨9, 9, 9⟩ (by decide)).2.1,
   (snap_curs_to_sel_ex_median example_env ⟨0, 0, 0⟩ [⟨2, 4, 6⟩] 3 ⟨9, 9, 9⟩ (by decide)).2.2,
   by norm_num [selection_mean]⟩

theorem add_sub_cancel_v3 (w off : Vec3 α) :
    sub_v3_v3v3 (add_v3_v3v3 w off) w = off := by
  cases off
  simp [sub_v3_v3v3, add_v3_v3v3]

theorem sub_add_add_v3 (a b off : Vec3 α) :
    sub_v3_v3v3 (add_v3_v3v3 a off) (add_v3_v3v3 b off) = sub_v3_v3v3 a b := by
  simp [sub_v3_v3v3, add_v3_v3v3]

/-- The new `loc` of an object without parent: the old one plus the vector
`cursor_parent`, on every axis when the protection flags are not used or no
axis is locked. -/
theorem snap_selected_object_unparented (env : Env α) (target offset : Vec3 α)
    (use_offset use_toolsettings : Bool) (ob : SnapObject α) (hp : ob.parent = none)
    (hl : use_toolsettings = true → unlocked env ob.protectflag) :
    (snap_selected_object env target offset use_offset use_toolsettings ob).loc =
      add_v3_v3v3 ob.loc
        (sub_v3_v3v3
          (if use_offset then add_v3_v3v3 ob.world_location offset else target)
          ob.world_location) := by
  unfold snap_selected_object
  rw [hp]
  simp only [Bool.false_eq_true, if_false]
  cases use_toolsettings with
  | false => simp
  | true =>
    obtain ⟨hx, hy, hz⟩ := hl rfl
    simp [hx, hy, hz, add_v3_v3v3]

/-- The vertices of an edit-mode object that is not skipped, after the loop
body with `use_offset = true`. -/
theorem snap_selected_edit_object_offset (env : Env α) (target offset : Vec3 α)
    (obedit : EditObject α) (hedit : obedit.skipped = false) :
    (snap_selected_edit_object env target offset true obedit).transverts =
      obedit.transverts.map (fun loc => add_v3_v3v3 loc
        (mul_m3_v3 (env.invert_m3_m3 obedit.bmat) offset)) := by
  unfold snap_selected_edit_object
  rw [hedit]
  simp only [Bool.false_eq_true, if_false, if_true]
  split
  · rfl
  · rename_i h
    have : obedit.transverts = [] := by
      cases ht : obedit.transverts with
      | nil => rfl
      | cons x xs => simp [ht] at h
    rw [this]
    rfl

/-- The vertices of an edit-mode object that is not skipped, after the loop
body with `use_offset = false`. -/
theorem snap_selected_edit_object_target (env : Env α) (target offset : Vec3 α)
    (obedit : EditObject α) (hedit : obedit.skipped = false) :
    (snap_selected_edit_object env target offset false obedit).transverts =
      obedit.transverts.map (fun _ =>
        mul_m3_v3 (env.invert_m3_m3 obedit.bmat)
          (sub_v3_v3v3 target obedit.world_location)) := by
  unfold snap_selected_edit_object
  rw [hedit]
  simp only [Bool.false_eq_true, if_false]
  split
  · rfl
  · rename_i h
    have : obedit.transverts = [] := by
      cases ht : obedit.transverts with
      | nil => rfl
      | cons x xs => simp [ht] at h
    rw [this]
    rfl

/-- C15: with `use_offset = true`, the vector `offset_global` is
`snap_target_global` minus the centre of the selection; in object mode the call
maps the loop body over the selected objects, and every object without parent
and (when the protection flags are used) without locked axis gets
`offset_global` added to its `loc`, so that the difference of the `loc` of two
such objects stays the same; in edit mode every vertex of an object that is not
skipped gets the same vector `offset_local = imat · offset_global` added to its
`loc`, so that the difference of two of them stays the same. -/
theorem snap_selected_to_location_keeps_offsets (env : Env α) (bf : BoneFlags)
    (active_center : Option (Vec3 α)) (positions : List (Vec3 α)) (uninit target : Vec3 α)
    (pivot_point : Int) (use_toolsettings : Bool) (offset_global : Vec3 α)
    (a b : SnapObject α) (obedit : EditObject α)
    (hoff : offset_global =
      snap_offset_global env active_center positions uninit target true pivot_point)
    (ha : a.parent = none ∧ (use_toolsettings = true → unlocked env a.protectflag))
    (hb : b.parent = none ∧ (use_toolsettings = true → unlocked env b.protectflag))
    (hedit : obedit.skipped = false) :
    offset_global =
      sub_v3_v3v3 target
        (snap_center_global env active_center positions uninit pivot_point) ∧
    (∀ objects, snap_selected_to_location env bf active_center positions uninit
        (.object objects) target true pivot_point use_toolsettings =
      (true, .object (objects.map
        (snap_selected_object env target offset_global true use_toolsettings)))) ∧
    (snap_selected_object env target offset_global true use_toolsettings a).loc =
      add_v3_v3v3 a.loc offset_global ∧
    (snap_selected_object env target offset_global true use_toolsettings b).loc =
      add_v3_v3v3 b.loc offset_global ∧
    sub_v3_v3v3 (snap_selected_object env target offset_global true use_toolsettings a).loc
        (snap_selected_object env target offset_global true use_toolsettings b).loc =
      sub_v3_v3v3 a.loc b.loc ∧
    (∀ objects, snap_selected_to_location env bf active_center positions uninit
        (.edit objects) target true pivot_point use_toolsettings =
      (true, .edit (objects.map
        (snap_selected_edit_object env target offset_global true)))) ∧
    (snap_selected_edit_object env target offset_global true obedit).transverts =
      obedit.transverts.map (fun loc => add_v3_v3v3 loc
        (mul_m3_v3 (env.invert_m3_m3 obedit.bmat) offset_global)) ∧
    (∀ la lb offset_local : Vec3 α,
      sub_v3_v3v3 (add_v3_v3v3 la offset_local) (add_v3_v3v3 lb offset_local) =
        sub_v3_v3v3 la lb) := by
  have hloc : ∀ ob : SnapObject α, ob.parent = none →
      (use_toolsettings = true → unlocked env ob.protectflag) →
      (snap_selected_object env target offset_global true use_toolsettings ob).loc =
        add_v3_v3v3 ob.loc offset_global := by
    intro ob hp hl
    rw [snap_selected_object_unparented env target _ true use_toolsettings ob hp hl, if_pos rfl,
      add_sub_cancel_v3]
  refine ⟨by rw [hoff]; rfl, fun _ => by rw [hoff]; rfl, hloc a ha.1 ha.2, hloc b hb.1 hb.2,
    ?_, fun _ => by rw [hoff]; rfl, ?_, sub_add_add_v3⟩
  · rw [hloc a ha.1 ha.2, hloc b hb.1 hb.2, sub_add_add_v3]
  · exact snap_selected_edit_object_offset env target offset_global obedit hedit

/-- Witness of C15: the two objects and the edit-mode object of the examples,
snapped to `(5, 5, 5)` around the median `(1, 2, 3)` of the two objects, in the
operator path; the offset is `(4, 3, 2)`. -/
theorem snap_selected_to_location_keeps_offsets_witness :
    (⟨4, 3, 2⟩ : Vec3 ℚ) =
      snap_offset_global example_env none [⟨0, 0, 0⟩, ⟨2, 4, 6⟩] ⟨0, 0, 0⟩ example_target
        true 3 ∧
    (example_object_a.parent = none ∧
      ((true : Bool) = true → unlocked example_env example_object_a.protectflag)) ∧
    (example_object_b.parent = none ∧
      ((true : Bool) = true → unlocked example_env example_object_b.protectflag)) ∧
    example_edit_object.skipped = false ∧
    (snap_selected_object example_env example_target ⟨4, 3, 2⟩ true true
      example_object_a).loc = add_v3_v3v3 example_object_a.loc ⟨4, 3, 2⟩ ∧
    (snap_selected_object example_env example_target ⟨4, 3, 2⟩ true true
      example_object_b).loc = add_v3_v3v3 example_object_b.loc ⟨4, 3, 2⟩ ∧
    (snap_selected_edit_object example_env example_target ⟨4, 3, 2⟩ true
      example_edit_object).transverts =
      example_edit_object.transverts.map (fun loc => add_v3_v3v3 loc
        (mul_m3_v3 (example_env.invert_m3_m3 example_edit_object.bmat) ⟨4, 3, 2⟩)) := by
  have hoff : (⟨4, 3, 2⟩ : Vec3 ℚ) =
      snap_offset_global example_env none [⟨0, 0, 0⟩, ⟨2, 4, 6⟩] ⟨0, 0, 0⟩ example_target
        true 3 := by
    norm_num [snap_offset_global, snap_center_global, snap_curs_to_sel_ex, example_env,
      example_target, sel_init, sel_step, add_int, wrap_int, minmax_min, minmax_max,
      mul_v3_fl, zero_v3, add_v3_v3v3, sub_v3_v3v3]
  have ha : example_object_a.parent = none ∧
      ((true : Bool) = true → unlocked example_env example_object_a.protectflag) :=
    ⟨rfl, fun _ => by decide⟩
  have hb : example_object_b.parent = none ∧
      ((true : Bool) = true → unlocked example_env example_object_b.protectflag) :=
    ⟨rfl, fun _ => by decide⟩
  have h := snap_selected_to_location_keeps_offsets example_env example_bone_flags none
    [⟨0, 0, 0⟩, ⟨2, 4, 6⟩] ⟨0, 0, 0⟩ example_target 3 true ⟨4, 3, 2⟩ example_object_a
    example_object_b example_edit_object hoff ha hb rfl
  exact ⟨hoff, ha, hb, rfl, h.2.2.1, h.2.2.2.1, h.2.2.2.2.2.2.1⟩

/-- C16: with `use_offset = false`, as `snap_selected_to_active_exec` calls it,
in edit mode every vertex of an object that is not skipped gets the same `loc`,
the snap target in the space of the object, and in object mode every object
without parent and (when the protection flags are used) without locked axis
gets `loc + (snap_target_global - world location)` as its new `loc`: moved by
that change of `loc`, its world location is `snap_target_global`. -/
theorem snap_selected_to_location_each (env : Env α) (bf : BoneFlags)
    (active_center : Option (Vec3 α)) (positions : List (Vec3 α)) (uninit target : Vec3 α)
    (pivot_point : Int) (use_toolsettings : Bool) (offset_global : Vec3 α)
    (ob : SnapObject α) (obedit : EditObject α)
    (hoff : offset_global =
      snap_offset_global env active_center positions uninit target false pivot_point)
    (hob : ob.parent = none ∧ (use_toolsettings = true → unlocked env ob.protectflag))
    (hedit : obedit.skipped = false) :
    (∀ ctx, snap_selected_to_active_exec env bf (some target) active_center positions uninit
        ctx =
      some (snap_selected_to_location env bf active_center positions uninit ctx target
        false (-1) true).2) ∧
    (∀ objects, snap_selected_to_location env bf active_center positions uninit
        (.edit objects) target false pivot_point use_toolsettings =
      (true, .edit (objects.map
        (snap_selected_edit_object env target offset_global false)))) ∧
    (snap_selected_edit_object env target offset_global false obedit).transverts =
      obedit.transverts.map (fun _ =>
        mul_m3_v3 (env.invert_m3_m3 obedit.bmat)
          (sub_v3_v3v3 target obedit.world_location)) ∧
    (∀ objects, snap_selected_to_location env bf active_center positions uninit
        (.object objects) target false pivot_point use_toolsettings =
      (true, .object (objects.map
        (snap_selected_object env target offset_global false use_toolsettings)))) ∧
    (snap_selected_object env target offset_global false use_toolsettings ob).loc =
      add_v3_v3v3 ob.loc (sub_v3_v3v3 target ob.world_location) ∧
    add_v3_v3v3 ob.world_location
        (sub_v3_v3v3
          (snap_selected_object env target offset_global false use_toolsettings ob).loc
          ob.loc) =
      target := by
  have hloc := snap_selected_object_unparented env target offset_global
    false use_toolsettings ob hob.1 hob.2
  simp only [Bool.false_eq_true, if_false] at hloc
  refine ⟨fun ctx => ?_, fun _ => by rw [hoff]; rfl,
    snap_selected_edit_object_target env target offset_global obedit hedit,
    fun _ => by rw [hoff]; rfl, hloc, ?_⟩
  · cases ctx <;> rfl
  · rw [hloc]
    cases target
    simp [add_v3_v3v3, sub_v3_v3v3]

/-- Witness of C16: the second object and the edit-mode object of the examples,
snapped to `(5, 5, 5)` in the operator path; the object at `(2, 4, 6)` gets the
`loc` `(5, 5, 5)`. -/
theorem snap_selected_to_location_each_witness :
    (⟨0, 0, 0⟩ : Vec3 ℚ) =
      snap_offset_global example_env none [] ⟨0, 0, 0⟩ example_target false (-1) ∧
    (example_object_b.parent = none ∧
      ((true : Bool) = true → unlocked example_env example_object_b.protectflag)) ∧
    example_edit_object.skipped = false ∧
    (snap_selected_object example_env example_target ⟨0, 0, 0⟩ false true
      example_object_b).loc =
      add_v3_v3v3 example_object_b.loc
        (sub_v3_v3v3 example_target example_object_b.world_location) ∧
    (snap_selected_object example_env example_target ⟨0, 0, 0⟩ false true
      example_object_b).loc = ⟨5, 5, 5⟩ ∧
    (snap_selected_edit_object example_env example_target ⟨0, 0, 0⟩ false
      example_edit_object).transverts =
      example_edit_object.transverts.map (fun _ =>
        mul_m3_v3 (example_env.invert_m3_m3 example_edit_object.bmat)
          (sub_v3_v3v3 example_target example_edit_object.world_location)) := by
  have hb : example_object_b.parent = none ∧
      ((true : Bool) = true → unlocked example_env example_object_b.protectflag) :=
    ⟨rfl, fun _ => by decide⟩
  have h := snap_selected_to_location_each example_env example_bone_flags none
    [] ⟨0, 0, 0⟩ example_target (-1) true ⟨0, 0, 0⟩ example_object_b example_edit_object
    rfl hb rfl
  refine ⟨rfl, hb, rfl, h.2.2.2.2.1, ?_, h.2.2.1⟩
  rw [h.2.2.2.2.1]
  norm_num [example_object_b, example_target, add_v3_v3v3, sub_v3_v3v3]

end Float

end View3dSnap

/-! ## Rigid body sweep test -/

namespace RigidBody

/-- The error paths of the sweep test: built with Bullet and called on a rigid
body world without physics world (a null pointer), whatever the object and the
library function, `rna_RigidBodyWorld_convex_sweep_test` reports that the world
was not initialized and returns `has_hit = -1`; and whenever the library
function leaves `-2` in `r_hit`, that value is returned. -/
theorem convex_sweep_test_has_hit_not_initialized {W B V : Type}
    (RB_world_convex_sweep_test : W → B → V → V → SweepOutput V → SweepOutput V)
    (physics_object : Option B) (ray_start ray_end : V) (out : SweepOutput V) :
    (rna_RigidBodyWorld_convex_sweep_test true RB_world_convex_sweep_test none
      physics_object ray_start ray_end out).1.r_hit = -1 ∧
    (rna_RigidBodyWorld_convex_sweep_test true RB_world_convex_sweep_test none
      physics_object ray_start ray_end out).2 = some Report.world_not_initialized ∧
    (-1 : Int) ≠ 1 ∧ (-1 : Int) ≠ 0 ∧
    (∀ (world : W) (object : B),
      (RB_world_convex_sweep_test world object ray_start ray_end out).r_hit = -2 →
      (rna_RigidBodyWorld_convex_sweep_test true RB_world_convex_sweep_test (some world)
        (some object) ray_start ray_end out).1.r_hit = -2) := by
  refine ⟨?_, ?_, by decide, by decide, ?_⟩
  · cases physics_object <;> rfl
  · cases physics_object <;> rfl
  · intro world object h
    simp [rna_RigidBodyWorld_convex_sweep_test, h]

end RigidBody

/-! ## Round trip through the corner and the grid -/

namespace Subdiv

section Float

variable {α : Type} [LinearOrderedField α]

/-- C19: for every `(u, v)` of the closed unit square, midlines and borders
included, `rotate_quad_to_corner u v` returns a corner `c` with corner
coordinates `(cu, cv)`, and `rotate_grid_to_quad` applied to `c` and to the grid
coordinates `ptex_face_uv_to_grid_uv cu cv` returns `(u, v)`. -/
theorem rotate_quad_corner_grid_round_trip (u v : α) (_hu : unit_interval u)
    (_hv : unit_interval v) :
    ∃ c cu cv, rotate_quad_to_corner u v = some (c, cu, cv) ∧
      rotate_grid_to_quad c (ptex_face_uv_to_grid_uv cu cv).1
        (ptex_face_uv_to_grid_uv cu cv).2 = some (u, v) := by
  rcases le_or_lt u (1 / 2) with h1 | h1 <;> rcases le_or_lt v (1 / 2) with h2 | h2
  · refine ⟨_, _, _, rotate_quad_to_corner_zero u v h1 h2, ?_⟩
    simp only [rotate_grid_to_quad, ptex_face_uv_to_grid_uv, half_literal, if_true]
    congr 2 <;> ring
  · refine ⟨_, _, _, rotate_quad_to_corner_three u v h1 h2, ?_⟩
    simp only [rotate_grid_to_quad, ptex_face_uv_to_grid_uv, half_literal]
    norm_num
    constructor <;> ring
  · refine ⟨_, _, _, rotate_quad_to_corner_one u v h1 h2, ?_⟩
    simp only [rotate_grid_to_quad, ptex_face_uv_to_grid_uv, half_literal]
    norm_num
    constructor <;> ring
  · refine ⟨_, _, _, rotate_quad_to_corner_two u v h1 h2, ?_⟩
    simp only [rotate_grid_to_quad, ptex_face_uv_to_grid_uv, half_literal]
    norm_num
    constructor <;> ring

/-- Witness of C19 at `(u, v) = (1/2, 1)`, on a midline and on the border. -/
theorem rotate_quad_corner_grid_round_trip_witness :
    unit_interval ((1 : ℚ) / 2) ∧ unit_interval (1 : ℚ) ∧
    ∃ c cu cv, rotate_quad_to_corner ((1 : ℚ) / 2) 1 = some (c, cu, cv) ∧
      rotate_grid_to_quad c (ptex_face_uv_to_grid_uv cu cv).1
        (ptex_face_uv_to_grid_uv cu cv).2 = some ((1 : ℚ) / 2, 1) :=
  ⟨by norm_num [unit_interval], by norm_num [unit_interval],
   rotate_quad_corner_grid_round_trip ((1 : ℚ) / 2) 1 (by norm_num [unit_interval])
     (by norm_num [unit_interval])⟩

/-- C20: the assertion of `rotate_quad_to_corner` holds whenever it is reached:
if none of the conditions of the first three branches holds, then
`quad_u <= 0.5` and `quad_v >= 0.5`; so the function never fails, and the
conditions of the first three branches and `quad_u <= 0.5 ∧ quad_v > 0.5`, under
which the last branch is reached, are pairwise exclusive and cover the plane. -/
theorem rotate_quad_to_corner_assert_valid (u v : α) :
    (¬(u ≤ 0.5 ∧ v ≤ 0.5) → ¬(u > 0.5 ∧ v ≤ 0.5) → ¬(u > 0.5 ∧ v > 0.5) →
      u ≤ 0.5 ∧ v ≥ 0.5) ∧
    rotate_quad_to_corner u v ≠ none ∧
    ((¬(u ≤ 0.5 ∧ v ≤ 0.5) ∧ ¬(u > 0.5 ∧ v ≤ 0.5) ∧ ¬(u > 0.5 ∧ v > 0.5)) ↔
      (u ≤ 0.5 ∧ v > 0.5)) ∧
    ((u ≤ 0.5 ∧ v ≤ 0.5) ∨ (u > 0.5 ∧ v ≤ 0.5) ∨ (u > 0.5 ∧ v > 0.5) ∨
      (u ≤ 0.5 ∧ v > 0.5)) ∧
    ¬((u ≤ 0.5 ∧ v ≤ 0.5) ∧ (u > 0.5 ∧ v ≤ 0.5)) ∧
    ¬((u ≤ 0.5 ∧ v ≤ 0.5) ∧ (u > 0.5 ∧ v > 0.5)) ∧
    ¬((u ≤ 0.5 ∧ v ≤ 0.5) ∧ (u ≤ 0.5 ∧ v > 0.5)) ∧
    ¬((u > 0.5 ∧ v ≤ 0.5) ∧ (u > 0.5 ∧ v > 0.5)) ∧
    ¬((u > 0.5 ∧ v ≤ 0.5) ∧ (u ≤ 0.5 ∧ v > 0.5)) ∧
    ¬((u > 0.5 ∧ v > 0.5) ∧ (u ≤ 0.5 ∧ v > 0.5)) := by
  have hsome : rotate_quad_to_corner u v ≠ none := by
    rcases le_or_lt u (1 / 2) with h1 | h1 <;> rcases le_or_lt v (1 / 2) with h2 | h2
    · rw [rotate_quad_to_corner_zero u v h1 h2]; exact Option.some_ne_none _
    · rw [rotate_quad_to_corner_three u v h1 h2]; exact Option.some_ne_none _
    · rw [rotate_quad_to_corner_one u v h1 h2]; exact Option.some_ne_none _
    · rw [rotate_quad_to_corner_two u v h1 h2]; exact Option.some_ne_none _
  refine ⟨?_, hsome, ?_, ?_, ?_, ?_, ?_, ?_, ?_, ?_⟩
  · intro n0 n1 n2
    rcases le_or_lt u 0.5 with h1 | h1 <;> rcases le_or_lt v 0.5 with h2 | h2
    · exact absurd ⟨h1, h2⟩ n0
    · exact ⟨h1, h2.le⟩
    · exact absurd ⟨h1, h2⟩ n1
    · exact absurd ⟨h1, h2⟩ n2
  · constructor
    · rintro ⟨n0, n1, n2⟩
      rcases le_or_lt u 0.5 with h1 | h1 <;> rcases le_or_lt v 0.5 with h2 | h2
      · exact absurd ⟨h1, h2⟩ n0
      · exact ⟨h1, h2⟩
      · exact absurd ⟨h1, h2⟩ n1
      · exact absurd ⟨h1, h2⟩ n2
    · rintro ⟨h1, h2⟩
      exact ⟨fun h => not_le.mpr h2 h.2, fun h => not_le.mpr h.1 h1,
        fun h => not_le.mpr h.1 h1⟩
  · rcases le_or_lt u 0.5 with h1 | h1 <;> rcases le_or_lt v 0.5 with h2 | h2
    · exact Or.inl ⟨h1, h2⟩
    · exact Or.inr (Or.inr (Or.inr ⟨h1, h2⟩))
    · exact Or.inr (Or.inl ⟨h1, h2⟩)
    · exact Or.inr (Or.inr (Or.inl ⟨h1, h2⟩))
  · exact fun h => not_le.mpr h.2.1 h.1.1
  · exact fun h => not_le.mpr h.2.1 h.1.1
  · exact fun h => not_le.mpr h.2.2 h.1.2
  · exact fun h => not_le.mpr h.2.2 h.1.2
  · exact fun h => not_le.mpr h.1.1 h.2.1
  · exact fun h => not_le.mpr h.1.1 h.2.1

/-- Witness of C20 at `(u, v) = (1/4, 3/4)`, where the last branch is reached. -/
theorem rotate_quad_to_corner_assert_valid_witness :
    ¬((1 : ℚ) / 4 ≤ 0.5 ∧ (3 : ℚ) / 4 ≤ 0.5) ∧ ¬((1 : ℚ) / 4 > 0.5 ∧ (3 : ℚ) / 4 ≤ 0.5) ∧
    ¬((1 : ℚ) / 4 > 0.5 ∧ (3 : ℚ) / 4 > 0.5) ∧
    ((1 : ℚ) / 4 ≤ 0.5 ∧ (3 : ℚ) / 4 ≥ 0.5) ∧
    rotate_quad_to_corner ((1 : ℚ) / 4) (3 / 4) ≠ none := by
  have h0 : ¬((1 : ℚ) / 4 ≤ 0.5 ∧ (3 : ℚ) / 4 ≤ 0.5) := by norm_num
  have h1 : ¬((1 : ℚ) / 4 > 0.5 ∧ (3 : ℚ) / 4 ≤ 0.5) := by norm_num
  have h2 : ¬((1 : ℚ) / 4 > 0.5 ∧ (3 : ℚ) / 4 > 0.5) := by norm_num
  exact ⟨h0, h1, h2, (rotate_quad_to_corner_assert_valid ((1 : ℚ) / 4) (3 / 4)).1 h0 h1 h2,
    (rotate_quad_to_corner_assert_valid ((1 : ℚ) / 4) (3 / 4)).2.1⟩

end Float

end Subdiv

/-! ## The level limit -/

namespace Subdiv

/-- C21: at the level `CCGSUBSURF_LEVEL_MAX = 11` the grid size is 1025 and a
triangle, with 3 corner grids of `1024²` quads, becomes `3 · 1024² = 3145728`
faces, more than 3 million and still representable as `int`; at level 10 the
count is 786432, less than 3 million. -/
theorem triangle_face_count_at_level_max :
    CCGSUBSURF_LEVEL_MAX = 11 ∧
    grid_size_from_level CCGSUBSURF_LEVEL_MAX = some (2 ^ 10 + 1) ∧
    subdivided_face_count 3 CCGSUBSURF_LEVEL_MAX = some 3145728 ∧
    (3145728 : Int) = 3 * 1024 ^ 2 ∧ (3145728 : Int) > 3000000 ∧
    fits_int (3 * 1024 ^ 2) ∧
    subdivided_face_count 3 (CCGSUBSURF_LEVEL_MAX - 1) = some 786432 ∧
    (786432 : Int) = 3 * 512 ^ 2 ∧ (786432 : Int) < 3000000 := by
  decide

end Subdiv
